import Mathlib

/-!
# ITensor dense-tensor core: ranges, iterators, views and the owning container

A shallow embedding of `itensor/matrix/vecrange.h`, `itensor/tensor/ten.h` and the
function `gateTEvol` of `itensor/tevol.h`.

Conventions of the embedding.

* `size_t` values are natural numbers; every `size_t` operation of the source is
  written with an explicit reduction modulo `SIZE_MOD = 2^64`.
* `long` values (`size_type` of the views and of `Tensor`) are integers; the
  conversions between `size_t` and `long` are `toLong` and `toSizeT`.
* Pointers are addresses (`Addr`), the null pointer is address `0`.
* `#ifdef DEBUG` blocks are guarded by a boolean parameter `debug`; the `assert`
  of `<cassert>` is guarded by a boolean parameter `asserts`.
* `Error(msg)` and `throw std::runtime_error(msg)` are `Fault.error msg`;
  undefined behaviour (dereferencing a null or dangling pointer) is
  `Fault.undefined`.
* A `std::vector<Real>` is the list of its elements; allocation always succeeds.
* The headers `range.h`, `teniter.h`, `ten.ih` and the header of `DataRange` are not
  among the sources; what the embedded code uses of them is modelled from the
  specification, and each such definition says so.
-/

namespace itensor

/-! ## Machine integers, faults -/

/-- The modulus of `size_t` arithmetic (64-bit `size_t`). -/
def SIZE_MOD : Nat := 2 ^ 64

/-- The `size_t` sum `a + b`. -/
def addSz (a b : Nat) : Nat := (a + b) % SIZE_MOD

/-- The `size_t` product `a * b`. -/
def mulSz (a b : Nat) : Nat := (a * b) % SIZE_MOD

/-- The `size_t` difference `a - b` (wraps around below zero). -/
def subSz (a b : Nat) : Nat := (a % SIZE_MOD + (SIZE_MOD - b % SIZE_MOD)) % SIZE_MOD

/-- Conversion of a `size_t` value to `long` (two's complement). -/
def toLong (n : Nat) : Int :=
  if n % SIZE_MOD < 2 ^ 63 then ((n % SIZE_MOD : Nat) : Int)
  else ((n % SIZE_MOD : Nat) : Int) - (SIZE_MOD : Int)

/-- Conversion of a `long` value to `size_t`. -/
def toSizeT (i : Int) : Nat := (i % (SIZE_MOD : Int)).toNat

/-- The ways an operation can fail. -/
inductive Fault where
  /-- A fatal error: `Error(msg)` or `throw std::runtime_error(msg)`. -/
  | error (msg : String)
  /-- Undefined behaviour: a null or dangling pointer is dereferenced. -/
  | undefined
  deriving DecidableEq, Repr

/-- The outcome of an operation that may fail. -/
abbrev Result (α : Type) := Except Fault α

deriving instance DecidableEq for Except

/-! ## `VecRange` (vecrange.h) -/

/-- The single-axis range `VecRange`: an extent and a stride, both `size_t`. -/
structure VecRange where
  ext_ : Nat := 0
  stride_ : Nat := 1
  deriving DecidableEq, Repr

namespace VecRange

/-- The constructor `VecRange(extent)`: unit stride. -/
def ofExtent (extent : Nat) : VecRange := { ext_ := extent, stride_ := 1 }

/-- The constructor `VecRange(extent, stride)`. -/
def ofExtentStride (extent stride : Nat) : VecRange := { ext_ := extent, stride_ := stride }

/-- The accessor `extent()`. -/
def extent (vr : VecRange) : Nat := vr.ext_

/-- The accessor `stride()`. -/
def stride (vr : VecRange) : Nat := vr.stride_

/-- The accessor `extent(i)`: in a `DEBUG` build every `i != 1` is an error. -/
def extentAt (debug : Bool) (vr : VecRange) (i : Nat) : Result Nat :=
  if debug && i != 1 then .error (.error "i out of range in VecRange::extent(i)")
  else .ok vr.ext_

/-- The accessor `stride(i)`: in a `DEBUG` build every `i != 1` is an error. -/
def strideAt (debug : Bool) (vr : VecRange) (i : Nat) : Result Nat :=
  if debug && i != 1 then .error (.error "i out of range in VecRange::stride(i)")
  else .ok vr.stride_

/-- The rank `r()` of a single-axis range. -/
def r (_vr : VecRange) : Nat := 1

end VecRange

/-- The range with the same extent and `stride() == 1`. -/
def normalRange (vr : VecRange) : VecRange := VecRange.ofExtent vr.extent

/-- The linear offset of the 1-based index `ind`: `vr.stride()*(ind-1)`. -/
def offset (vr : VecRange) (ind : Nat) : Nat := mulSz vr.stride (subSz ind 1)

/-- The number of elements of a single-axis range. -/
def area (vr : VecRange) : Nat := vr.extent

/-- The predicate `isNormal`. -/
def isNormal (vr : VecRange) : Bool := vr.stride == 1

/-- The predicate `isContiguous`. -/
def isContiguous (vr : VecRange) : Bool := vr.stride == 1

/-! ## `VecRangeIter` (vecrange.h) -/

/-- The iterator of a single-axis range: a 1-based index and a stride. -/
structure VecRangeIter where
  ind_ : Nat := 1
  stride_ : Nat := 0
  deriving DecidableEq, Repr

namespace VecRangeIter

/-- The constructor `VecRangeIter(stride)`. -/
def ofStride (stride : Nat) : VecRangeIter := { stride_ := stride }

/-- The constructor `VecRangeIter(vr)`. -/
def ofRange (vr : VecRange) : VecRangeIter := { stride_ := vr.stride }

/-- The accessor `offset()`: `ind_-1`. -/
def offset (it : VecRangeIter) : Nat := subSz it.ind_ 1

/-- The accessor `index()`. -/
def index (it : VecRangeIter) : Nat := it.ind_

/-- The accessor `stride()`. -/
def stride (it : VecRangeIter) : Nat := it.stride_

/-- Pre-increment `++it`: `ind_ += stride_`. -/
def inc (it : VecRangeIter) : VecRangeIter := { it with ind_ := addSz it.ind_ it.stride_ }

/-- Post-increment `it++`: the old value and the advanced iterator. -/
def postInc (it : VecRangeIter) : VecRangeIter × VecRangeIter := (it, it.inc)

/-- The operator `it += x`: `ind_ += x * stride_`. -/
def addAssign (it : VecRangeIter) (x : Nat) : VecRangeIter :=
  { it with ind_ := addSz it.ind_ (mulSz x it.stride_) }

/-- Pre-decrement `--it`: `ind_ -= stride_`. -/
def dec (it : VecRangeIter) : VecRangeIter := { it with ind_ := subSz it.ind_ it.stride_ }

/-- Post-decrement `it--`: the old value and the retreated iterator. -/
def postDec (it : VecRangeIter) : VecRangeIter × VecRangeIter := (it, it.dec)

/-- The operator `it -= x`: `ind_ -= x * stride_`. -/
def subAssign (it : VecRangeIter) (x : Nat) : VecRangeIter :=
  { it with ind_ := subSz it.ind_ (mulSz x it.stride_) }

/-- The sentinel `makeEnd(r)`: index `1+r.stride()*r.extent()`, stride of `r`. -/
def makeEnd (r : VecRange) : VecRangeIter :=
  { ind_ := addSz 1 (mulSz r.stride r.extent), stride_ := r.stride }

/-- The operator `x == y`; `none` when the `assert` on equal strides fails. -/
def eq (asserts : Bool) (x y : VecRangeIter) : Option Bool :=
  if asserts && x.stride != y.stride then none else some (x.offset == y.offset)

/-- The operator `x != y`; `none` when the `assert` on equal strides fails. -/
def ne (asserts : Bool) (x y : VecRangeIter) : Option Bool :=
  if asserts && x.stride != y.stride then none else some (x.offset != y.offset)

/-- The operator `x < y`; `none` when the `assert` on equal strides fails. -/
def lt (asserts : Bool) (x y : VecRangeIter) : Option Bool :=
  if asserts && x.stride != y.stride then none else some (decide (x.offset < y.offset))

/-- The iterator after `n` applications of `++`. -/
def incTimes : Nat → VecRangeIter → VecRangeIter
  | 0, it => it
  | n + 1, it => incTimes n it.inc

end VecRangeIter

/-- The member `VecRange::begin()`. -/
def VecRange.begin (vr : VecRange) : VecRangeIter := VecRangeIter.ofRange vr

/-- The member `VecRange::end()`. -/
def VecRange.end (vr : VecRange) : VecRangeIter := VecRangeIter.makeEnd vr

/-- The outcome of running an iteration loop. -/
inductive LoopResult where
  /-- The loop ended; the offsets of the visited positions, in order. -/
  | finished (offsets : List Nat)
  /-- The `assert` of an iterator comparison failed. -/
  | assertFailed
  /-- The loop was still running when the fuel ran out. -/
  | outOfFuel
  deriving DecidableEq, Repr

/-- The loop `for(it = first; it != last; ++it) visit(it.offset())`, run for at
most `fuel` evaluations of the loop condition. -/
def forEachOffset (asserts : Bool) : Nat → VecRangeIter → VecRangeIter → LoopResult
  | 0, _, _ => .outOfFuel
  | fuel + 1, it, last =>
    match VecRangeIter.ne asserts it last with
    | none => .assertFailed
    | some false => .finished []
    | some true =>
      match forEachOffset asserts fuel it.inc last with
      | .finished offs => .finished (it.offset :: offs)
      | other => other

/-- The loop over a whole range, from `vr.begin()` to `vr.end()`. -/
def VecRange.iterate (asserts : Bool) (fuel : Nat) (vr : VecRange) : LoopResult :=
  forEachOffset asserts fuel vr.begin vr.end

/-- The offsets visited by the loop from `vr.begin()` to `vr.end()`. The loop
condition is evaluated at most `ext_ + 1` times (after `ext_` steps the iterator
has the offset of the sentinel), so this fuel always suffices. -/
def VecRange.offsets (vr : VecRange) : List Nat :=
  match vr.iterate false (vr.ext_ + 1) with
  | .finished offs => offs
  | _ => []

/-- The iterator of stride `s` that has taken `j` steps from index `1`. -/
def stepped (s j : Nat) : VecRangeIter := { ind_ := (1 + j * s) % SIZE_MOD, stride_ := s }

/-! ## Memory -/

/-- An address; `nullptr` is address `0`. -/
abbrev Addr := Nat

/-- The null pointer. -/
def nullptr : Addr := 0

/-- The element type `Real` (`double`). The operations of the views and of the
container only store, copy and zero-initialise elements, so they are represented by
exact numbers; in `gateTEvol` the arithmetic on `Real` is exact arithmetic, the
rounding of `double` is not represented. -/
abbrev Real := ℚ

/-- The memory holding range objects: the object at an address, if one lives there. -/
abbrev RangeMem (RangeT : Type) := Addr → Option RangeT

/-- The memory holding elements: the element at an address, if one lives there. -/
abbrev RealMem := Addr → Option Real

/-- Modelled from the spec: the data span `DataRange<T>` (its header is not among
the sources): a pointer-like handle and the maximum addressable element count; it
addresses memory it does not own and never allocates. -/
structure DataRange where
  pdata : Addr := nullptr
  size : Nat := 0
  deriving DecidableEq, Repr

namespace DataRange

/-- Modelled from the spec: the handle `data()` of a span. -/
def data (d : DataRange) : Addr := d.pdata

/-- Modelled from the spec: `clear()` releases the span, "without touching backing
memory". -/
def clear (_d : DataRange) : DataRange := {}

/-- Modelled from the spec: the element `off` places after the handle; addressing
through a null handle or past the capacity is undefined. -/
def read (d : DataRange) (mem : RealMem) (off : Nat) : Result Real :=
  if d.pdata = nullptr ∨ d.size ≤ off then .error .undefined
  else match mem (d.pdata + off) with
    | some x => .ok x
    | none => .error .undefined

end DataRange

/-! ## The multi-axis range `Range` and `RangeBuilder` (range.h, not among the sources) -/

/-- Modelled from the spec: one axis of a multi-axis range (`range.h` is not among
the sources): "a per-dimension (extent, stride) pair". -/
structure AxisDescriptor where
  extent : Nat
  stride : Nat
  deriving DecidableEq, Repr

/-- Modelled from the spec: the multi-axis range `Range` (`range.h` is not among
the sources): "an ordered sequence of axis descriptors". -/
structure Range where
  axes : List AxisDescriptor := []
  deriving DecidableEq, Repr

/-- Modelled from the spec: the "canonical strides" of a list of extents, with the
"fastest-varying axis first": the stride of an axis is the product of the extents
of the axes before it, starting from `acc`. -/
def canonicalAxes : Nat → List Nat → List AxisDescriptor
  | _, [] => []
  | acc, d :: ds => { extent := d, stride := acc } :: canonicalAxes (acc * d) ds

namespace Range

/-- Modelled from the spec: the constructor `Range(d0, d1, ...)` of `range.h`:
"builds a contiguous range with canonical strides" from a dimension list. -/
def ofDims (dims : List Nat) : Range := { axes := canonicalAxes 1 dims }

/-- Modelled from the spec: the rank `r()`, "rank = count of axes". -/
def r (rg : Range) : Nat := rg.axes.length

/-- Modelled from the spec: the per-axis extents, in axis order. -/
def extents (rg : Range) : List Nat := rg.axes.map AxisDescriptor.extent

/-- Modelled from the spec: an access to axis `i`: "per-axis extent/stride accessors
are 1-based, erroring (debug-checked) when the axis index is outside [1, rank]";
unchecked, an index outside is undefined. -/
def axisAt (debug : Bool) (rg : Range) (i : Int) : Result AxisDescriptor :=
  if 1 ≤ i ∧ i ≤ (rg.axes.length : Int) then
    match rg.axes.get? (i - 1).toNat with
    | some a => .ok a
    | none => .error .undefined
  else if debug then .error (.error "axis index out of range")
  else .error .undefined

/-- Modelled from the spec: the accessor `extent(i)` of `range.h`. -/
def extentAt (debug : Bool) (rg : Range) (i : Int) : Result Nat :=
  (rg.axisAt debug i).map AxisDescriptor.extent

/-- Modelled from the spec: the accessor `stride(i)` of `range.h`. -/
def strideAt (debug : Bool) (rg : Range) (i : Int) : Result Nat :=
  (rg.axisAt debug i).map AxisDescriptor.stride

/-- Modelled from the spec: `area(range)` of `range.h`: "total element count =
product of extents". -/
def area (rg : Range) : Nat := rg.extents.prod

/-- Modelled from the spec: `isContiguous(range)` of `range.h`: "axes form a dense
unit-innermost-stride packing with no gaps or overlaps", that is, the strides are
the canonical ones of the extents. -/
def isContiguous (rg : Range) : Bool := rg.axes == canonicalAxes 1 rg.extents

/-- Modelled from the spec: the linear offsets of the positions of the rank-N
iterator of `teniter.h`, which "walks the cartesian product of axis index ranges in
a fixed nested order (fastest-varying axis first)". -/
def offsetsOf : List AxisDescriptor → List Nat
  | [] => [0]
  | a :: rest =>
    (offsetsOf rest).flatMap fun base => (List.range a.extent).map fun i => base + i * a.stride

/-- Modelled from the spec: the offsets visited from `begin()` to `end()`. -/
def offsets (rg : Range) : List Nat := offsetsOf rg.axes

/-- Modelled from the spec: `clear()` of `range.h`: the range without axes. -/
def clear (_rg : Range) : Range := {}

end Range

/-- Modelled from the spec: the range-building collaborator `RangeBuilder` of
`range.h`: "given a target rank, accepts per-axis extents added one at a time in
axis order and yields a fully built contiguous range". -/
structure RangeBuilder where
  rank : Int
  exts : List Nat := []
  deriving DecidableEq, Repr

namespace RangeBuilder

/-- Modelled from the spec: the constructor `RangeBuilder(rank)`. -/
def ofRank (rank : Int) : RangeBuilder := { rank := rank }

/-- Modelled from the spec: `nextExtent(e)` adds the extent of the next axis. -/
def nextExtent (rb : RangeBuilder) (e : Int) : RangeBuilder :=
  { rb with exts := rb.exts ++ [e.toNat] }

/-- Modelled from the spec: `build()` yields the contiguous range of the extents
added so far. -/
def build (rb : RangeBuilder) : Range := Range.ofDims rb.exts

end RangeBuilder

/-- The interface a range type offers to the views `TenRefc<RangeT>` and
`TenRef<RangeT>`, as the views use it: with `size_type = long` arguments and
results. -/
class RangeType (RangeT : Type) where
  /-- The default-constructed range. -/
  dflt : RangeT
  /-- The call `range.r()`. -/
  r : RangeT → Int
  /-- The call `range.extent(i)`. -/
  extent : Bool → RangeT → Int → Result Int
  /-- The call `range.stride(i)`. -/
  stride : Bool → RangeT → Int → Result Int
  /-- The call `area(range)`. -/
  area : RangeT → Int
  /-- The linear offsets of the positions from `begin()` to `end()`. -/
  offsets : RangeT → List Nat

instance : RangeType VecRange where
  dflt := {}
  r vr := toLong vr.r
  extent debug vr i := (vr.extentAt debug (toSizeT i)).map toLong
  stride debug vr i := (vr.strideAt debug (toSizeT i)).map toLong
  area vr := toLong (area vr)
  offsets vr := vr.offsets

instance : RangeType Range where
  dflt := {}
  r rg := (rg.r : Int)
  extent debug rg i := (rg.extentAt debug i).map Int.ofNat
  stride debug rg i := (rg.strideAt debug i).map Int.ofNat
  area rg := (rg.area : Int)
  offsets rg := rg.offsets

/-! ## The views `TenRefc` and `TenRef` (ten.h) -/

/-- The read-only view `TenRefc<RangeT>`: the members `d_`, `prange_` and `range_`,
together with the address `&range_` of the member `range_` of this view object. -/
structure TenRefc (RangeT : Type) where
  rangeAddr : Addr
  d_ : DataRange := {}
  prange_ : Addr := nullptr
  range_ : RangeT

namespace TenRefc

variable {RangeT : Type} [RangeType RangeT]

/-- The default constructor `TenRefc()`, for a view object whose member `range_`
lives at `self`. -/
def default (self : Addr) : TenRefc RangeT :=
  { rangeAddr := self, d_ := {}, prange_ := nullptr, range_ := RangeType.dflt }

/-- The constructor `TenRefc(storage_type dat, range_type const& range)`; the
reference `range` is the address of the object of the caller. -/
def ofConstRef (self : Addr) (dat : DataRange) (range : Addr) : TenRefc RangeT :=
  { rangeAddr := self, d_ := dat, prange_ := range, range_ := RangeType.dflt }

/-- The constructor `TenRefc(storage_type dat, range_type && range)`. -/
def ofMoved (self : Addr) (dat : DataRange) (range : RangeT) : TenRefc RangeT :=
  { rangeAddr := self, d_ := dat, prange_ := self, range_ := range }

/-- The constructor `TenRefc(storage_type dat, const range_type* prange)`. -/
def ofPointer (self : Addr) (dat : DataRange) (prange : Addr) : TenRefc RangeT :=
  { rangeAddr := self, d_ := dat, prange_ := prange, range_ := RangeType.dflt }

/-- The member `ownRange()`: `prange_ == &range_`. -/
def ownRange (v : TenRefc RangeT) : Bool := v.prange_ == v.rangeAddr

/-- The member `range()`: the object `*prange_`, which is the member `range_` when
`prange_` points to it and otherwise the object that `mem` holds at `prange_`. -/
def range (mem : RangeMem RangeT) (v : TenRefc RangeT) : Result RangeT :=
  if v.prange_ = nullptr then .error .undefined
  else if v.prange_ = v.rangeAddr then .ok v.range_
  else match mem v.prange_ with
    | some rg => .ok rg
    | none => .error .undefined

/-- The member `r()`: `prange_->r()`. -/
def r (mem : RangeMem RangeT) (v : TenRefc RangeT) : Result Int :=
  (v.range mem).map RangeType.r

/-- The member `size()`: `area(*prange_)`. -/
def size (mem : RangeMem RangeT) (v : TenRefc RangeT) : Result Int :=
  (v.range mem).map RangeType.area

/-- The conversion `operator bool()`: `bool(d_.data())`. -/
def toBool (v : TenRefc RangeT) : Bool := v.d_.data != nullptr

/-- The member `extent(i)`: `prange_->extent(i)`. -/
def extent (debug : Bool) (mem : RangeMem RangeT) (v : TenRefc RangeT) (i : Int) : Result Int :=
  (v.range mem).bind fun rg => RangeType.extent debug rg i

/-- The member `stride(i)`: `prange_->stride(i)`. -/
def stride (debug : Bool) (mem : RangeMem RangeT) (v : TenRefc RangeT) (i : Int) : Result Int :=
  (v.range mem).bind fun rg => RangeType.stride debug rg i

/-- The member `store()`. -/
def store (v : TenRefc RangeT) : DataRange := v.d_

/-- The member `data()`: `d_.data()`. -/
def data (v : TenRefc RangeT) : Addr := v.d_.data

/-- The member `clear()`: `d_.clear(); prange_ = nullptr;`. -/
def clear (v : TenRefc RangeT) : TenRefc RangeT :=
  { v with d_ := v.d_.clear, prange_ := nullptr }

/-- Modelled from the spec: the elements met from `begin()` to `end()` (the
iterator `TenIter` of `teniter.h` is not among the sources): "begin/end produce
range iterators over the active range and data span", one element per offset of
the range, read through the span. -/
def elements (rmem : RangeMem RangeT) (dmem : RealMem) (v : TenRefc RangeT) :
    Result (List Real) :=
  (v.range rmem).bind fun rg => (RangeType.offsets rg).mapM fun off => v.d_.read dmem off

end TenRefc

/-- The mutable view `TenRef<RangeT>`, derived from `TenRefc<RangeT>` without
members of its own. -/
structure TenRef (RangeT : Type) where
  parent : TenRefc RangeT

namespace TenRef

variable {RangeT : Type} [RangeType RangeT]

/-- The default constructor `TenRef()`. -/
def default (self : Addr) : TenRef RangeT := { parent := TenRefc.default self }

/-- The constructor `TenRef(storage_type dat, range_type const& range)`:
`parent(dat,range)`. -/
def ofConstRef (self : Addr) (dat : DataRange) (range : Addr) : TenRef RangeT :=
  { parent := TenRefc.ofConstRef self dat range }

/-- The constructor `TenRef(storage_type dat, range_type && range)`:
`parent(dat,std::move(range))`. -/
def ofMoved (self : Addr) (dat : DataRange) (range : RangeT) : TenRef RangeT :=
  { parent := TenRefc.ofMoved self dat range }

/-- The constructor `TenRef(storage_type dat, const range_type* prange)`:
`parent(dat,prange)`. -/
def ofPointer (self : Addr) (dat : DataRange) (prange : Addr) : TenRef RangeT :=
  { parent := TenRefc.ofPointer self dat prange }

/-- The inherited member `ownRange()`. -/
def ownRange (v : TenRef RangeT) : Bool := v.parent.ownRange

/-- The inherited member `range()`. -/
def range (mem : RangeMem RangeT) (v : TenRef RangeT) : Result RangeT := v.parent.range mem

/-- The inherited member `r()`. -/
def r (mem : RangeMem RangeT) (v : TenRef RangeT) : Result Int := v.parent.r mem

/-- The inherited member `size()`. -/
def size (mem : RangeMem RangeT) (v : TenRef RangeT) : Result Int := v.parent.size mem

/-- The inherited member `extent(i)`. -/
def extent (debug : Bool) (mem : RangeMem RangeT) (v : TenRef RangeT) (i : Int) : Result Int :=
  v.parent.extent debug mem i

/-- The inherited member `stride(i)`. -/
def stride (debug : Bool) (mem : RangeMem RangeT) (v : TenRef RangeT) (i : Int) : Result Int :=
  v.parent.stride debug mem i

/-- The inherited conversion `operator bool()`. -/
def toBool (v : TenRef RangeT) : Bool := v.parent.toBool

/-- The member `data()`: the pointer of the parent, with `const` cast away. -/
def data (v : TenRef RangeT) : Addr := v.parent.data

/-- The member `store()`: `Data(data(),parent::store().size())`. -/
def store (v : TenRef RangeT) : DataRange := { pdata := v.data, size := v.parent.store.size }

/-- The inherited member `clear()`. -/
def clear (v : TenRef RangeT) : TenRef RangeT := { parent := v.parent.clear }

end TenRef

/-- The specialisation `TensorRef = TenRef<Range>`. -/
abbrev TensorRef := TenRef Range

/-- The specialisation `TensorRefc = TenRefc<Range>`. -/
abbrev TensorRefc := TenRefc Range

/-! ## The container `Tensor` (ten.h) -/

/-- The container `Tensor`: the members `range_` and `data_` (a `std::vector<Real>`). -/
structure Tensor where
  range_ : Range := {}
  data_ : List Real := []
  deriving DecidableEq, Repr

/-- The effect of `std::vector<Real>::resize(n)`: the first `n` elements are kept
and zeros are appended up to length `n`. -/
def vectorResize (v : List Real) (n : Nat) : List Real :=
  v.take n ++ List.replicate (n - v.length) 0

namespace Tensor

/-- The conversion `operator bool()`: `!data_.empty()`. -/
def toBool (t : Tensor) : Bool := !t.data_.isEmpty

/-- The member `r()`: `range_.r()`. -/
def r (t : Tensor) : Int := (t.range_.r : Int)

/-- The member `size()`: `data_.size()`. -/
def size (t : Tensor) : Int := (t.data_.length : Int)

/-- The member `extent(i)`: `range_.extent(i)`. -/
def extent (debug : Bool) (t : Tensor) (i : Int) : Result Int :=
  (t.range_.extentAt debug i).map Int.ofNat

/-- The member `stride(i)`: `range_.stride(i)`. -/
def stride (debug : Bool) (t : Tensor) (i : Int) : Result Int :=
  (t.range_.strideAt debug i).map Int.ofNat

/-- The member `range()`. -/
def range (t : Tensor) : Range := t.range_

/-- The member `store()`. -/
def store (t : Tensor) : List Real := t.data_

/-- The member `clear()`: `data_.clear(); range_.clear();`. -/
def clear (t : Tensor) : Tensor := { range_ := t.range_.clear, data_ := [] }

/-- The member `resize(newrange)`: `range_ = newrange; data_.resize(size());`. -/
def resize (t : Tensor) (newrange : Range) : Tensor :=
  let t1 : Tensor := { t with range_ := newrange }
  { t1 with data_ := vectorResize t1.data_ (toSizeT t1.size) }

/-- The private member `init()`: the storage becomes `area(range_)` zeros; in a
`DEBUG` build a non-contiguous range and a zero area are errors. -/
def init (debug : Bool) (t : Tensor) : Result Tensor :=
  let len := t.range_.area
  if debug && !t.range_.isContiguous then
    .error (.error "Tensor can only be constructed from contiguous range")
  else if debug && len == 0 then
    .error (.error "Zero area in tensor")
  else
    .ok { t with data_ := List.replicate len 0 }

/-- The constructor `Tensor(size_type d0, Dims&&... rest)`: `range_(d0,rest...)`,
then `init()`. The dimensions, of type `long` in the source, are taken
non-negative. -/
def ofDims (debug : Bool) (d0 : Nat) (rest : List Nat) : Result Tensor :=
  init debug { range_ := Range.ofDims (d0 :: rest), data_ := [] }

/-- The constructor `Tensor(storage_type && store, range_type && range)`; in a
`DEBUG` build a non-contiguous range is an error. -/
def ofStoreRange (debug : Bool) (store : List Real) (range : Range) : Result Tensor :=
  if debug && !range.isContiguous then
    .error (.error "Tensor required to have contiguous range")
  else
    .ok { range_ := range, data_ := store }

/-- The loop of `assignFromRef`:
`for(n = 0; n < ref.r(); ++n) rb.nextExtent(ref.extent(n));`
over the values `ns` of `n` that are still to come. -/
def extentLoop {RangeT : Type} [RangeType RangeT] (debug : Bool) (mem : RangeMem RangeT)
    (ref : TenRefc RangeT) : List Nat → RangeBuilder → Result RangeBuilder
  | [], rb => .ok rb
  | n :: ns, rb =>
    match ref.extent debug mem (n : Int) with
    | .ok e => extentLoop debug mem ref ns (rb.nextExtent e)
    | .error f => .error f

/-- The private member `assignFromRef(ref)`: a range is built from the extents
`ref.extent(n)` for `n = 0, ..., ref.r()-1`, then the elements from `ref.begin()` to
`ref.end()` are assigned to the storage. -/
def assignFromRef {RangeT : Type} [RangeType RangeT] (debug : Bool) (rmem : RangeMem RangeT)
    (dmem : RealMem) (_t : Tensor) (ref : TenRefc RangeT) : Result Tensor :=
  match ref.r rmem with
  | .error f => .error f
  | .ok rank =>
    match extentLoop debug rmem ref (List.range rank.toNat) (RangeBuilder.ofRank rank) with
    | .error f => .error f
    | .ok rb =>
      match ref.elements rmem dmem with
      | .error f => .error f
      | .ok elems => .ok { range_ := rb.build, data_ := elems }

/-- The constructor `Tensor(TenRefc<R> const& ref)`: `assignFromRef(ref)` on a
default-constructed container. -/
def ofRef {RangeT : Type} [RangeType RangeT] (debug : Bool) (rmem : RangeMem RangeT)
    (dmem : RealMem) (ref : TenRefc RangeT) : Result Tensor :=
  assignFromRef debug rmem dmem {} ref

/-- The operator `operator=(TenRefc<R> const& ref)`: `assignFromRef(ref)`. -/
def assignRef {RangeT : Type} [RangeType RangeT] (debug : Bool) (rmem : RangeMem RangeT)
    (dmem : RealMem) (t : Tensor) (ref : TenRefc RangeT) : Result Tensor :=
  assignFromRef debug rmem dmem t ref

end Tensor

/-- A container object in memory, named or a temporary that lives until the end
of its full-expression: its value and the addresses of its member `range_` and of
the buffer of its member `data_`. -/
structure TensorObj where
  val : Tensor
  rangeAddr : Addr
  dataAddr : Addr

/-- Modelled from the spec: the member `pointTo(t)` of `ten.ih` (not among the
sources): a view from an existing container "aliases the container's own range and
storage". -/
def TenRefc.pointTo (v : TenRefc Range) (t : TensorObj) : TenRefc Range :=
  { v with d_ := { pdata := t.dataAddr, size := t.val.data_.length }, prange_ := t.rangeAddr }

/-- The constructor `TenRefc(tensor_type const& t)`: `pointTo(t)`. -/
def TenRefc.ofTensor (self : Addr) (t : TensorObj) : TensorRefc :=
  (TenRefc.default self).pointTo t

/-- The constructor `TenRef(tensor_type & t)`: `parent::pointTo(t)`. -/
def TenRef.ofTensor (self : Addr) (t : TensorObj) : TensorRef :=
  { parent := (TenRefc.default self).pointTo t }

/-! ## The `makeRef` functions (ten.h) -/

/-- A call of `makeRef` with a container as first argument, by the value category
and the constness of the argument, which select the overload. -/
inductive MakeRefCall (VArg : Type) where
  /-- The call on a named mutable container: it selects `makeRef(Tensor & t)`. -/
  | lvalue (t : TensorObj)
  /-- The call on a named read-only container: it selects `makeRef(Tensor const& t)`. -/
  | constLvalue (t : TensorObj)
  /-- The call on a temporary (rvalue) of type `Tensor`, with or without extra
  arguments: it selects `makeRef(Tensor && t, VArgs&&... vargs)`. -/
  | rvalue (t : Tensor) (vargs : List VArg)
  /-- The call on a temporary (rvalue) of type `const Tensor`, without extra
  arguments: `Tensor && t` is an rvalue reference to non-const, to which a const
  temporary cannot bind, so the call selects `makeRef(Tensor const& t)`. With extra
  arguments no overload of `ten.h` accepts a const temporary. -/
  | constRvalue (t : TensorObj)

/-- The view a call of `makeRef` returns. -/
inductive MadeRef where
  /-- A mutable view `TensorRef`. -/
  | mutableView (v : TensorRef)
  /-- A read-only view `TensorRefc`. -/
  | constView (v : TensorRefc)

/-- The function `makeRef` on containers; `self` is where the returned view lives.
The overload `makeRef(Tensor & t)` returns `TensorRef(t)`, the overload
`makeRef(Tensor const& t)` returns `TensorRefc(t)`, and the overload
`makeRef(Tensor && t, VArgs&&... vargs)` throws. -/
def makeRef {VArg : Type} (self : Addr) : MakeRefCall VArg → Result MadeRef
  | .lvalue t => .ok (.mutableView (TenRef.ofTensor self t))
  | .constLvalue t => .ok (.constView (TenRefc.ofTensor self t))
  | .rvalue _ _ => .error (.error "Cannot call makeRef on temporary (rvalue) Tensor")
  | .constRvalue t => .ok (.constView (TenRefc.ofTensor self t))

/-! ## Calls in a checked build, view state, copies of views -/

/-- The call `offset(vr, ind)` in a build with (`debug = true`) or without `DEBUG`:
the body of `offset` has no `#ifdef DEBUG` block and no failing path, so the call
returns the computed offset in either build. -/
def offsetCall (_debug : Bool) (vr : VecRange) (ind : Nat) : Result Nat := .ok (offset vr ind)

/-- The memory a view refers to: the range objects and the elements. -/
structure Heap (RangeT : Type) where
  ranges : RangeMem RangeT
  reals : RealMem

/-- The statement `v.clear()` as a step on the memory and the view: it assigns to
the members `d_` and `prange_` of the view and writes nowhere else. -/
def TenRefc.clearIn {RangeT : Type} (h : Heap RangeT) (v : TenRefc RangeT) :
    Heap RangeT × TenRefc RangeT :=
  (h, v.clear)

/-- The statement `v.clear()` on a mutable view, as a step on the memory and the
view. -/
def TenRef.clearIn {RangeT : Type} (h : Heap RangeT) (v : TenRef RangeT) :
    Heap RangeT × TenRef RangeT :=
  (h, v.clear)

/-- Modelled from the spec: the copy assignment `operator=(TenRefc const& t)`, declared
in `ten.h` and defined in `ten.ih` (not among the sources): "copying a view that owns
its range yields a new view owning its own range copy over the same storage; copying
a view that aliases an external range yields a new view aliasing the SAME external
range (shallow re-alias)". -/
def TenRefc.assign {RangeT : Type} (v t : TenRefc RangeT) : TenRefc RangeT :=
  if t.ownRange then { v with d_ := t.d_, range_ := t.range_, prange_ := v.rangeAddr }
  else { v with d_ := t.d_, prange_ := t.prange_ }

/-- The copy constructor `TenRefc(TenRefc const& t)`: `operator=(t)` on the new
view object, whose member `range_` lives at `self`. -/
def TenRefc.copy {RangeT : Type} [RangeType RangeT] (self : Addr) (t : TenRefc RangeT) :
    TenRefc RangeT :=
  (TenRefc.default self).assign t

/-- The copy assignment `TenRef::operator=(TenRef const& t)`: `parent::operator=(t)`. -/
def TenRef.assign {RangeT : Type} (v t : TenRef RangeT) : TenRef RangeT :=
  { parent := v.parent.assign t.parent }

/-- The copy constructor `TenRef(TenRef const& t)`: `operator=(t)` on the new view
object. -/
def TenRef.copy {RangeT : Type} [RangeType RangeT] (self : Addr) (t : TenRef RangeT) :
    TenRef RangeT :=
  (TenRef.default self).assign t

/-- The axis indices that the loop of `assignFromRef`,
`for(n = 0; n < ref.r(); ++n) rb.nextExtent(ref.extent(n));`,
passes to `ref.extent` for a view of rank `rank`: the values of `n`, in order. -/
def Tensor.axesRead (rank : Int) : List Nat := List.range rank.toNat

/-! ## Referenced assignment `operator&=` (declared in ten.h, defined in ten.ih) -/

/-- Modelled from the spec: the comparison of the per-axis extents of two ranges, on
the axes `k+1` for the `k` of the list, for the referenced assignment "requiring
matching rank and per-axis extents". -/
def extentsAgree {R1 R2 : Type} [RangeType R1] [RangeType R2] (debug : Bool) (ra : R1)
    (rb : R2) : List Nat → Result Bool
  | [] => .ok true
  | k :: ks =>
    match RangeType.extent debug ra ((k : Int) + 1), RangeType.extent debug rb ((k : Int) + 1) with
    | .ok ea, .ok eb => if ea = eb then extentsAgree debug ra rb ks else .ok false
    | .error f, _ => .error f
    | .ok _, .error f => .error f

/-- Modelled from the spec: whether two ranges have "matching rank and per-axis
extents". -/
def sameShape {R1 R2 : Type} [RangeType R1] [RangeType R2] (debug : Bool) (ra : R1)
    (rb : R2) : Result Bool :=
  if RangeType.r ra = RangeType.r rb then
    extentsAgree debug ra rb (List.range (RangeType.r ra).toNat)
  else .ok false

/-- The memory after the element `x` is stored at `addr`. -/
def RealMem.write (mem : RealMem) (addr : Addr) (x : Real) : RealMem :=
  fun a => if a = addr then some x else mem a

/-- Modelled from the spec: the elements of the source of a referenced assignment,
read through its span at the offsets of its range, in order. -/
def DataRange.readAll (d : DataRange) (mem : RealMem) : List Nat → Result (List Real)
  | [] => .ok []
  | o :: rest =>
    match d.read mem o with
    | .error f => .error f
    | .ok x =>
      match DataRange.readAll d mem rest with
      | .error f => .error f
      | .ok xs => .ok (x :: xs)

/-- Modelled from the spec: the stores of a referenced assignment: each element of
the list is stored at its offset in the target span, in order. The outcome comes
with the memory afterwards. -/
def storeLoop (dst : DataRange) : List (Nat × Real) → RealMem → Result Unit × RealMem
  | [], mem => (.ok (), mem)
  | (oa, x) :: rest, mem =>
    if dst.pdata = nullptr ∨ dst.size ≤ oa then (.error .undefined, mem)
    else storeLoop dst rest (mem.write (dst.pdata + oa) x)

/-- Modelled from the spec: the referenced assignment `a &= b` of `ten.ih` (not among
the sources) from a read-only view `b` into the storage that the mutable view `a`
addresses, "requiring matching rank and per-axis extents (fatal error on mismatch)",
a mismatch being reported with "no partial mutation"; it "copies element-by-element
from a source view or container into the storage the target view addresses": the
element that `b` has at its `k`-th position when the assignment starts is stored at
the `k`-th position of `a`. The result is the outcome and the memory of elements
afterwards. -/
def refAssign {R1 R2 : Type} [RangeType R1] [RangeType R2] (debug : Bool)
    (rm1 : RangeMem R1) (rm2 : RangeMem R2) (dmem : RealMem) (a : TenRef R1)
    (b : TenRefc R2) : Result Unit × RealMem :=
  match a.range rm1 with
  | .error f => (.error f, dmem)
  | .ok ra =>
    match b.range rm2 with
    | .error f => (.error f, dmem)
    | .ok rb =>
      match sameShape debug ra rb with
      | .error f => (.error f, dmem)
      | .ok false =>
        (.error (.error "Mismatched rank or extents in referenced assignment"), dmem)
      | .ok true =>
        match b.store.readAll dmem (RangeType.offsets rb) with
        | .error f => (.error f, dmem)
        | .ok elems => storeLoop a.store (List.zip (RangeType.offsets ra) elems) dmem

/-- Modelled from the spec: the referenced assignment `a &= t` from a container, the
assignment from the read-only view of the container. -/
def refAssignTensor {R1 : Type} [RangeType R1] (debug : Bool) (rm1 : RangeMem R1)
    (rm2 : RangeMem Range) (dmem : RealMem) (a : TenRef R1) (self : Addr) (t : TensorObj) :
    Result Unit × RealMem :=
  refAssign debug rm1 rm2 dmem a (TenRefc.ofTensor self t)

/-! ## `gateTEvol` (tevol.h) -/

/-- The operations of the state `MPSt<Tensor>` and of the gates `BondGate<Tensor>`
that `gateTEvol` uses; their types are not among the sources and are parameters. -/
structure MPSOps (Psi Gate : Type) where
  /-- The call `psi.normalize()`: the norm it returns and the state afterwards. -/
  normalize : Psi → Real × Psi
  /-- The call `psi.position(i)`. -/
  position : Psi → Int → Psi
  /-- The call `psi.applygate(G)`. -/
  applygate : Psi → Gate → Psi
  /-- The call `G.i()`. -/
  site : Gate → Int

/-- The function `fabs`. -/
def fabs (x : Real) : Real := if x < 0 then -x else x

/-- The conversion `int(x)`: truncation toward zero, undefined outside the range of
a 32-bit `int`. -/
def toInt (x : Real) : Result Int :=
  let n := Int.tdiv x.num (x.den : Int)
  if -(2 : Int) ^ 31 ≤ n ∧ n < (2 : Int) ^ 31 then .ok n else .error .undefined

/-- The body of one sweep: `Foreach(G, gatelist) { psi.position(G.i()); psi.applygate(G); }`. -/
def applyGates {Psi Gate : Type} (ops : MPSOps Psi Gate) : List Gate → Psi → Psi
  | [], psi => psi
  | G :: rest, psi => applyGates ops rest (ops.applygate (ops.position psi (ops.site G)) G)

/-- The loop `for(int tt = 1; tt <= nt; ++tt)` with `sweeps` iterations to go, on the
variables `tsofar`, `tot_norm` and `psi`. -/
def sweepLoop {Psi Gate : Type} (ops : MPSOps Psi Gate) (gatelist : List Gate)
    (tstep : Real) : Nat → Real × Real × Psi → Real × Real × Psi
  | 0, st => st
  | sweeps + 1, (tsofar, tot_norm, psi) =>
    let psi1 := applyGates ops gatelist psi
    let np := ops.normalize psi1
    sweepLoop ops gatelist tstep sweeps (tsofar + tstep, tot_norm * np.1, np.2)

/-- The number of iterations of `for(int tt = 1; tt <= nt; ++tt)`. -/
def sweepCount (nt : Int) : Nat := nt.toNat

/-- The function `gateTEvol(gatelist, ttotal, tstep, psi, opts)`, without the output
of the `Verbose` option: the returned norm and the state afterwards. -/
def gateTEvol {Psi Gate : Type} (ops : MPSOps Psi Gate) (gatelist : List Gate)
    (ttotal tstep : Real) (psi : Psi) : Result (Real × Psi) :=
  match toInt (ttotal / tstep + (1 / 1000000000 * (ttotal / tstep))) with
  | .error f => .error f
  | .ok nt =>
    if fabs ((nt : Real) * tstep - ttotal) > 1 / 1000000000 then
      .error (.error "Timestep not commensurate with total time")
    else
      let np := ops.normalize psi
      let st := sweepLoop ops gatelist tstep (sweepCount nt) (0, np.1, np.2)
      .ok (st.2.1, st.2.2)

/-- What a state that records its history has undergone. -/
inductive TEvolEvent where
  /-- A call of `normalize()`. -/
  | normalize
  /-- A call of `position(i)`. -/
  | position (i : Int)
  /-- A call of `applygate(G)` for the gate of site `i`. -/
  | applygate (i : Int)
  deriving DecidableEq, Repr

/-- A state that records the calls made on it, with gates given by their sites;
every norm is 1. -/
def recordingOps : MPSOps (List TEvolEvent) Int where
  normalize psi := (1, psi ++ [.normalize])
  position psi i := psi ++ [.position i]
  applygate psi G := psi ++ [.applygate G]
  site G := G

/-! ## Sequences of iterator steps -/

/-- One step on a single-axis iterator. -/
inductive IterStep where
  /-- The step `++it` (or `it++`). -/
  | inc
  /-- The step `--it` (or `it--`). -/
  | dec
  /-- The step `it += x`. -/
  | addAssign (x : Nat)
  /-- The step `it -= x`. -/
  | subAssign (x : Nat)
  deriving DecidableEq, Repr

/-- The iterator after one step. -/
def IterStep.apply : IterStep → VecRangeIter → VecRangeIter
  | .inc, it => it.inc
  | .dec, it => it.dec
  | .addAssign x, it => it.addAssign x
  | .subAssign x, it => it.subAssign x

/-- The iterator after a sequence of steps, taken in order. -/
def applySteps : List IterStep → VecRangeIter → VecRangeIter
  | [], it => it
  | st :: rest, it => applySteps rest (st.apply it)

/-! ## Facts of `size_t` arithmetic -/

theorem subSz_one (i : Nat) (h : 1 ≤ i) : subSz i 1 = (i - 1) % SIZE_MOD := by
  unfold subSz SIZE_MOD
  omega

theorem subSz_succ_mod (a : Nat) : subSz ((1 + a) % SIZE_MOD) 1 = a % SIZE_MOD := by
  unfold subSz SIZE_MOD
  omega

theorem addSz_one_mulSz (a b : Nat) : addSz 1 (mulSz a b) = (1 + a * b) % SIZE_MOD := by
  unfold addSz mulSz SIZE_MOD
  omega

theorem mulSz_mod_right (a b : Nat) : mulSz a (b % SIZE_MOD) = (a * b) % SIZE_MOD := by
  unfold mulSz
  rw [Nat.mul_mod, Nat.mod_mod, ← Nat.mul_mod]

theorem mod_eq_zero_of_add_mod_eq (a b : Nat) (h : a % SIZE_MOD = (a + b) % SIZE_MOD) :
    b % SIZE_MOD = 0 := by
  unfold SIZE_MOD at *
  omega

/-! ## The position of an iterator after some steps -/

theorem begin_eq_stepped (r : VecRange) : r.begin = stepped r.stride 0 := by
  simp [VecRange.begin, VecRangeIter.ofRange, stepped, SIZE_MOD]

theorem end_eq_stepped (r : VecRange) : r.end = stepped r.stride r.extent := by
  simp only [VecRange.end, VecRangeIter.makeEnd, stepped, addSz_one_mulSz, Nat.mul_comm]

theorem stepped_inc (s j : Nat) : (stepped s j).inc = stepped s (j + 1) := by
  have h : addSz ((1 + j * s) % SIZE_MOD) s = (1 + (j * s + s)) % SIZE_MOD := by
    unfold addSz SIZE_MOD
    omega
  simp only [VecRangeIter.inc, stepped, h, Nat.succ_mul]

theorem stepped_offset (s j : Nat) : (stepped s j).offset = (j * s) % SIZE_MOD := by
  simp only [VecRangeIter.offset, stepped, subSz_succ_mod]

theorem stepped_incTimes (s : Nat) : ∀ n j : Nat,
    VecRangeIter.incTimes n (stepped s j) = stepped s (j + n)
  | 0, j => rfl
  | n + 1, j => by
    rw [VecRangeIter.incTimes, stepped_inc, stepped_incTimes s n (j + 1)]
    congr 1
    omega

theorem stepped_addAssign (s n : Nat) :
    (stepped s 0).addAssign n = stepped s n := by
  have h : addSz ((1 + 0 * s) % SIZE_MOD) (mulSz n s) = (1 + n * s) % SIZE_MOD := by
    unfold addSz mulSz SIZE_MOD
    omega
  simp only [VecRangeIter.addAssign, stepped, h]

theorem stepped_ne (asserts : Bool) (s j e : Nat) :
    VecRangeIter.ne asserts (stepped s j) (stepped s e)
      = some ((j * s) % SIZE_MOD != (e * s) % SIZE_MOD) := by
  unfold VecRangeIter.ne
  rw [stepped_offset, stepped_offset]
  simp [VecRangeIter.stride, stepped]

theorem stepped_eq (asserts : Bool) (s j e : Nat) :
    VecRangeIter.eq asserts (stepped s j) (stepped s e)
      = some ((j * s) % SIZE_MOD == (e * s) % SIZE_MOD) := by
  unfold VecRangeIter.eq
  rw [stepped_offset, stepped_offset]
  simp [VecRangeIter.stride, stepped]

/-- The loop started after `j` steps, `k` steps before the sentinel, visits the
`k` offsets that remain when no earlier position has the offset of the sentinel. -/
theorem forEachOffset_stepped (asserts : Bool) (e s : Nat)
    (hs : ∀ d, 1 ≤ d → d ≤ e → (d * s) % SIZE_MOD ≠ 0) :
    ∀ k j fuel : Nat, j + k = e → k < fuel →
      forEachOffset asserts fuel (stepped s j) (stepped s e)
        = .finished ((List.range' j k).map fun i => (i * s) % SIZE_MOD)
  | 0, j, fuel, hjk, hf => by
    obtain ⟨f, rfl⟩ : ∃ f, fuel = f + 1 := ⟨fuel - 1, by omega⟩
    have hje : j = e := by omega
    subst hje
    simp [forEachOffset, stepped_ne]
  | k + 1, j, fuel, hjk, hf => by
    obtain ⟨f, rfl⟩ : ∃ f, fuel = f + 1 := ⟨fuel - 1, by omega⟩
    have hne : (j * s) % SIZE_MOD ≠ (e * s) % SIZE_MOD := by
      intro h
      have he : e * s = j * s + (k + 1) * s := by rw [← hjk, Nat.add_mul]
      rw [he] at h
      exact hs (k + 1) (by omega) (by omega) (mod_eq_zero_of_add_mod_eq _ _ h)
    have hb : ((j * s) % SIZE_MOD != (e * s) % SIZE_MOD) = true := by
      simpa [bne_iff_ne] using hne
    have ih := forEachOffset_stepped asserts e s hs k (j + 1) f (by omega) (by omega)
    simp [forEachOffset, stepped_ne, hb, stepped_inc, ih, stepped_offset, List.range'_succ]

/-- The loop between two positions of one range always ends: `k` steps before the
sentinel, `k + 1` evaluations of the loop condition suffice. -/
theorem forEachOffset_stepped_finishes (asserts : Bool) (e s : Nat) :
    ∀ k j fuel : Nat, j + k = e → k < fuel →
      ∃ offs, forEachOffset asserts fuel (stepped s j) (stepped s e) = .finished offs
  | 0, j, fuel, hjk, hf => by
    obtain ⟨f, rfl⟩ : ∃ f, fuel = f + 1 := ⟨fuel - 1, by omega⟩
    have hje : j = e := by omega
    subst hje
    exact ⟨[], by simp [forEachOffset, stepped_ne]⟩
  | k + 1, j, fuel, hjk, hf => by
    obtain ⟨f, rfl⟩ : ∃ f, fuel = f + 1 := ⟨fuel - 1, by omega⟩
    obtain ⟨offs, ih⟩ :=
      forEachOffset_stepped_finishes asserts e s k (j + 1) f (by omega) (by omega)
    cases hb : ((j * s) % SIZE_MOD != (e * s) % SIZE_MOD) with
    | false => exact ⟨[], by simp [forEachOffset, stepped_ne, hb]⟩
    | true =>
      exact ⟨(stepped s j).offset :: offs, by simp [forEachOffset, stepped_ne, hb, stepped_inc, ih]⟩

/-- The loop from `vr.begin()` to `vr.end()` ends within `ext_ + 1` evaluations of
its condition, for every range. -/
theorem iterate_finishes (asserts : Bool) (vr : VecRange) :
    ∃ offs, vr.iterate asserts (vr.ext_ + 1) = .finished offs := by
  unfold VecRange.iterate
  rw [begin_eq_stepped, end_eq_stepped]
  exact forEachOffset_stepped_finishes asserts vr.extent vr.stride vr.extent 0 (vr.ext_ + 1)
    (by omega) (by simp [VecRange.extent])

/-! ## Single-axis ranges: offsets, iteration, contiguity -/

/-- C1: for every range `VecRange(e, s)` with `e ≥ 1` and every index `i` with
`1 ≤ i ≤ e`, `offset(r, i)` is `s*(i-1)` in `size_t` arithmetic (so it is `s*(i-1)`
itself when that product fits `size_t`), and `offset(r, 1)` is `0` for every
stride. -/
theorem offset_eq_stride_mul_pred (e s i : Nat) (he : 1 ≤ e) (hi : 1 ≤ i) (hie : i ≤ e) :
    offset (VecRange.ofExtentStride e s) i = (s * (i - 1)) % SIZE_MOD
    ∧ (s * (i - 1) < SIZE_MOD → offset (VecRange.ofExtentStride e s) i = s * (i - 1))
    ∧ offset (VecRange.ofExtentStride e s) 1 = 0 := by
  have _ := he
  have _ := hie
  have h : offset (VecRange.ofExtentStride e s) i = (s * (i - 1)) % SIZE_MOD := by
    unfold offset
    rw [subSz_one i hi, mulSz_mod_right]
    rfl
  refine ⟨h, fun hlt => ?_, ?_⟩
  · rw [h, Nat.mod_eq_of_lt hlt]
  · unfold offset
    rw [subSz_one 1 (Nat.le_refl 1), mulSz_mod_right]
    simp

/-- Witness of C1: extent 4, stride 2, index 3. -/
theorem offset_eq_stride_mul_pred_witness :
    offset (VecRange.ofExtentStride 4 2) 3 = (2 * (3 - 1)) % SIZE_MOD
    ∧ (2 * (3 - 1) < SIZE_MOD → offset (VecRange.ofExtentStride 4 2) 3 = 2 * (3 - 1))
    ∧ offset (VecRange.ofExtentStride 4 2) 1 = 0 :=
  offset_eq_stride_mul_pred 4 2 3 (by decide) (by decide) (by decide)

/-- C2, counterexample: the range of extent 1 and stride 0 has its sentinel at the
index of `begin()`, so the loop from `begin()` to `end()` ends at once and visits no
position, where the claim announces one position with offset list `[0]`. -/
theorem iterate_stride_zero_visits_nothing :
    (VecRange.ofExtentStride 1 0).iterate true 2 = LoopResult.finished []
    ∧ (VecRange.ofExtentStride 1 0).iterate false 2 = LoopResult.finished []
    ∧ (List.range 1).map (fun j => (j * 0) % SIZE_MOD) = [0] := by
  decide

/-- C2, amended: for every extent `e` and every stride `s` such that no multiple
`d*s` with `1 ≤ d ≤ e` is `0` in `size_t` arithmetic, the loop that starts at
`VecRange(e, s).begin()`, advances with `++` and stops when the iterator equals
`VecRange(e, s).end()` ends (any fuel above `e` suffices), visits exactly `e`
positions, and their offsets are `0, s, 2s, ..., (e-1)s` (in `size_t` arithmetic) in
that order. -/
theorem iterate_offsets (asserts : Bool) (e s fuel : Nat)
    (hs : ∀ d, 1 ≤ d → d ≤ e → (d * s) % SIZE_MOD ≠ 0) (hfuel : e < fuel) :
    (VecRange.ofExtentStride e s).iterate asserts fuel
      = LoopResult.finished ((List.range e).map fun j => (j * s) % SIZE_MOD)
    ∧ ((List.range e).map fun j => (j * s) % SIZE_MOD).length = e := by
  refine ⟨?_, by simp⟩
  unfold VecRange.iterate
  rw [begin_eq_stepped, end_eq_stepped, List.range_eq_range']
  exact forEachOffset_stepped asserts e s hs e 0 fuel (by omega) hfuel

/-- Witness of C2: extent 4 and stride 2, offsets 0, 2, 4, 6. -/
theorem iterate_offsets_witness :
    (VecRange.ofExtentStride 4 2).iterate true 5
      = LoopResult.finished ((List.range 4).map fun j => (j * 2) % SIZE_MOD)
    ∧ ((List.range 4).map fun j => (j * 2) % SIZE_MOD).length = 4 :=
  iterate_offsets true 4 2 5
    (by intro d h1 h4; unfold SIZE_MOD; omega) (by decide)

/-- C3: for every single-axis range `r`, `r.begin()` has index 1 and offset 0,
`r.end()` has index `1 + stride*extent` (computed in `size_t`, hence that very
number when it fits), and `r.begin()` advanced by `extent` applications of `++`, or
by one `+= extent`, compares equal to `r.end()`, with the `assert` on or off. -/
theorem begin_end_half_open (asserts : Bool) (r : VecRange) :
    r.begin.index = 1 ∧ r.begin.offset = 0
    ∧ r.end.index = (1 + r.stride * r.extent) % SIZE_MOD
    ∧ (1 + r.stride * r.extent < SIZE_MOD → r.end.index = 1 + r.stride * r.extent)
    ∧ VecRangeIter.eq asserts (VecRangeIter.incTimes r.extent r.begin) r.end = some true
    ∧ VecRangeIter.eq asserts (r.begin.addAssign r.extent) r.end = some true := by
  have hend : r.end.index = (1 + r.stride * r.extent) % SIZE_MOD := by
    simp only [VecRange.end, VecRangeIter.makeEnd, VecRangeIter.index, addSz_one_mulSz]
  have hoff : r.begin.offset = 0 := by
    rw [begin_eq_stepped, stepped_offset]
    simp
  refine ⟨rfl, hoff, hend, fun hlt => ?_, ?_, ?_⟩
  · rw [hend, Nat.mod_eq_of_lt hlt]
  · rw [begin_eq_stepped, end_eq_stepped, stepped_incTimes, Nat.zero_add, stepped_eq]
    simp
  · rw [begin_eq_stepped, end_eq_stepped, stepped_addAssign, stepped_eq]
    simp

/-- C4: `isContiguous(VecRange(e))` is true for every extent, `isContiguous(VecRange(e, s))`
is true exactly when `s = 1`, `isNormal` agrees with `isContiguous` on every range,
and `normalRange(r)` is contiguous with the extent of `r`. -/
theorem isContiguous_iff_unit_stride (e s : Nat) (r : VecRange) :
    isContiguous (VecRange.ofExtent e) = true
    ∧ (isContiguous (VecRange.ofExtentStride e s) = true ↔ s = 1)
    ∧ isNormal r = isContiguous r
    ∧ isContiguous (normalRange r) = true
    ∧ (normalRange r).extent = r.extent := by
  simp [isContiguous, isNormal, normalRange, VecRange.ofExtent, VecRange.ofExtentStride,
    VecRange.stride, VecRange.extent]

theorem multiples_nonzero_of_no_wrap (e s : Nat) (hs : 1 ≤ s) (h : e * s < SIZE_MOD) :
    ∀ d, 1 ≤ d → d ≤ e → (d * s) % SIZE_MOD ≠ 0 := by
  intro d h1 hd
  have hle : d * s ≤ e * s := Nat.mul_le_mul_right s hd
  have hpos : 1 ≤ d * s := Nat.mul_pos h1 hs
  rw [Nat.mod_eq_of_lt (Nat.lt_of_le_of_lt hle h)]
  omega

/-! ## Views: which range a view refers to -/

/-- C5, counterexample: a read-only and a mutable view whose member `range_` lives
at address 100, built by the constructor taking the range by const reference from a
span and the range object of the caller at address 200 (extent 4, stride 2):
`ownRange()` is false, `prange_` is the address of the object of the caller, `range()`
reads that object, and the internal `range_` is a default range, not a copy. -/
theorem ofConstRef_does_not_own :
    (TenRefc.ofConstRef 100 ⟨1000, 8⟩ 200 : TenRefc VecRange).ownRange = false
    ∧ (TenRefc.ofConstRef 100 ⟨1000, 8⟩ 200 : TenRefc VecRange).prange_ = 200
    ∧ (TenRefc.ofConstRef 100 ⟨1000, 8⟩ 200 : TenRefc VecRange).range_ = VecRange.ofExtentStride 0 1
    ∧ (TenRefc.ofConstRef 100 ⟨1000, 8⟩ 200 : TenRefc VecRange).range
        (fun a => if a = 200 then some (VecRange.ofExtentStride 4 2) else none)
        = .ok (VecRange.ofExtentStride 4 2)
    ∧ (TenRef.ofConstRef 100 ⟨1000, 8⟩ 200 : TenRef VecRange).ownRange = false := by
  decide

/-- C5, amended: a view (`TenRefc` or `TenRef`) constructed from a data span and a
range passed by const reference aliases the range object of the caller, an object
other than its own member `range_`: `ownRange()` returns false, `prange_` is the
address of the object of the caller and `range()` is that object; the span is the
one given. -/
theorem ofConstRef_aliases_caller_range (RangeT : Type) [RangeType RangeT]
    (self p : Addr) (dat : DataRange) (mem : RangeMem RangeT) (rg : RangeT)
    (hself : p ≠ self) (hnull : p ≠ nullptr) (hmem : mem p = some rg) :
    (TenRefc.ofConstRef self dat p : TenRefc RangeT).ownRange = false
    ∧ (TenRefc.ofConstRef self dat p : TenRefc RangeT).prange_ = p
    ∧ (TenRefc.ofConstRef self dat p : TenRefc RangeT).range mem = .ok rg
    ∧ (TenRefc.ofConstRef self dat p : TenRefc RangeT).store = dat
    ∧ (TenRef.ofConstRef self dat p : TenRef RangeT).ownRange = false
    ∧ (TenRef.ofConstRef self dat p : TenRef RangeT).parent.prange_ = p
    ∧ (TenRef.ofConstRef self dat p : TenRef RangeT).range mem = .ok rg := by
  have hown : (TenRefc.ofConstRef self dat p : TenRefc RangeT).ownRange = false := by
    simp [TenRefc.ownRange, TenRefc.ofConstRef, hself]
  have hrange : (TenRefc.ofConstRef self dat p : TenRefc RangeT).range mem = .ok rg := by
    simp [TenRefc.range, TenRefc.ofConstRef, hself, hnull, hmem]
  exact ⟨hown, rfl, hrange, rfl, hown, rfl, hrange⟩

/-- Witness of C5: the view at address 100 over the range of the caller at
address 200. -/
theorem ofConstRef_aliases_caller_range_witness :
    (TenRefc.ofConstRef 100 ⟨1000, 8⟩ 200 : TenRefc VecRange).ownRange = false
    ∧ (TenRefc.ofConstRef 100 ⟨1000, 8⟩ 200 : TenRefc VecRange).prange_ = 200
    ∧ (TenRefc.ofConstRef 100 ⟨1000, 8⟩ 200 : TenRefc VecRange).range
        (fun a => if a = 200 then some (VecRange.ofExtentStride 4 2) else none)
        = .ok (VecRange.ofExtentStride 4 2)
    ∧ (TenRefc.ofConstRef 100 ⟨1000, 8⟩ 200 : TenRefc VecRange).store = ⟨1000, 8⟩
    ∧ (TenRef.ofConstRef 100 ⟨1000, 8⟩ 200 : TenRef VecRange).ownRange = false
    ∧ (TenRef.ofConstRef 100 ⟨1000, 8⟩ 200 : TenRef VecRange).parent.prange_ = 200
    ∧ (TenRef.ofConstRef 100 ⟨1000, 8⟩ 200 : TenRef VecRange).range
        (fun a => if a = 200 then some (VecRange.ofExtentStride 4 2) else none)
        = .ok (VecRange.ofExtentStride 4 2) :=
  ofConstRef_aliases_caller_range VecRange 100 200 ⟨1000, 8⟩
    (fun a => if a = 200 then some (VecRange.ofExtentStride 4 2) else none)
    (VecRange.ofExtentStride 4 2) (by decide) (by decide) (by decide)

/-- C6: a view constructed from a span and a range transferred by move has
`ownRange()` true and `range()` equal to the moved-in range; a view constructed from
a span and a pointer `p` to an externally owned range (an object other than its own
member `range_`) has `ownRange()` false, `range()` is the range at `p`, and `r()`,
`extent(i)`, `stride(i)` and `size()` report the values of that range; this holds for
`TenRefc` and for `TenRef`. -/
theorem ofMoved_owns_and_ofPointer_aliases (RangeT : Type) [RangeType RangeT]
    (debug : Bool) (self p : Addr) (dat : DataRange) (moved : RangeT)
    (mem : RangeMem RangeT) (rg : RangeT) (i : Int)
    (hobj : self ≠ nullptr) (hself : p ≠ self) (hnull : p ≠ nullptr) (hmem : mem p = some rg) :
    ((TenRefc.ofMoved self dat moved).ownRange = true
      ∧ (TenRefc.ofMoved self dat moved).range mem = .ok moved
      ∧ (TenRef.ofMoved self dat moved).ownRange = true
      ∧ (TenRef.ofMoved self dat moved).range mem = .ok moved)
    ∧ ((TenRefc.ofPointer self dat p : TenRefc RangeT).ownRange = false
      ∧ (TenRefc.ofPointer self dat p : TenRefc RangeT).range mem = .ok rg
      ∧ (TenRefc.ofPointer self dat p : TenRefc RangeT).r mem = .ok (RangeType.r rg)
      ∧ (TenRefc.ofPointer self dat p : TenRefc RangeT).extent debug mem i
          = RangeType.extent debug rg i
      ∧ (TenRefc.ofPointer self dat p : TenRefc RangeT).stride debug mem i
          = RangeType.stride debug rg i
      ∧ (TenRefc.ofPointer self dat p : TenRefc RangeT).size mem = .ok (RangeType.area rg))
    ∧ ((TenRef.ofPointer self dat p : TenRef RangeT).ownRange = false
      ∧ (TenRef.ofPointer self dat p : TenRef RangeT).range mem = .ok rg
      ∧ (TenRef.ofPointer self dat p : TenRef RangeT).r mem = .ok (RangeType.r rg)
      ∧ (TenRef.ofPointer self dat p : TenRef RangeT).extent debug mem i
          = RangeType.extent debug rg i
      ∧ (TenRef.ofPointer self dat p : TenRef RangeT).stride debug mem i
          = RangeType.stride debug rg i
      ∧ (TenRef.ofPointer self dat p : TenRef RangeT).size mem = .ok (RangeType.area rg)) := by
  have hmo : (TenRefc.ofMoved self dat moved).ownRange = true := by
    simp [TenRefc.ownRange, TenRefc.ofMoved]
  have hmr : (TenRefc.ofMoved self dat moved).range mem = .ok moved := by
    simp [TenRefc.range, TenRefc.ofMoved, hobj]
  have hpo : (TenRefc.ofPointer self dat p : TenRefc RangeT).ownRange = false := by
    simp [TenRefc.ownRange, TenRefc.ofPointer, hself]
  have hpr : (TenRefc.ofPointer self dat p : TenRefc RangeT).range mem = .ok rg := by
    simp [TenRefc.range, TenRefc.ofPointer, hself, hnull, hmem]
  have hr : (TenRefc.ofPointer self dat p : TenRefc RangeT).r mem = .ok (RangeType.r rg) := by
    rw [TenRefc.r, hpr]; rfl
  have he : (TenRefc.ofPointer self dat p : TenRefc RangeT).extent debug mem i
      = RangeType.extent debug rg i := by
    rw [TenRefc.extent, hpr]; rfl
  have hst : (TenRefc.ofPointer self dat p : TenRefc RangeT).stride debug mem i
      = RangeType.stride debug rg i := by
    rw [TenRefc.stride, hpr]; rfl
  have hsz : (TenRefc.ofPointer self dat p : TenRefc RangeT).size mem
      = .ok (RangeType.area rg) := by
    rw [TenRefc.size, hpr]; rfl
  exact ⟨⟨hmo, hmr, hmo, hmr⟩, ⟨hpo, hpr, hr, he, hst, hsz⟩, ⟨hpo, hpr, hr, he, hst, hsz⟩⟩

/-- Witness of C6: a view at address 100; the moved-in range has extent 3 and
stride 5, the external range at address 200 has extent 4 and stride 2, and axis 1 is
queried in a `DEBUG` build. -/
theorem ofMoved_owns_and_ofPointer_aliases_witness :
    ((TenRefc.ofMoved 100 ⟨1000, 8⟩ (VecRange.ofExtentStride 3 5)).ownRange = true
      ∧ (TenRefc.ofPointer 100 ⟨1000, 8⟩ 200 : TenRefc VecRange).ownRange = false
      ∧ (TenRefc.ofPointer 100 ⟨1000, 8⟩ 200 : TenRefc VecRange).extent true
          (fun a => if a = 200 then some (VecRange.ofExtentStride 4 2) else none) 1 = .ok 4
      ∧ (TenRef.ofPointer 100 ⟨1000, 8⟩ 200 : TenRef VecRange).stride true
          (fun a => if a = 200 then some (VecRange.ofExtentStride 4 2) else none) 1 = .ok 2) := by
  have h := ofMoved_owns_and_ofPointer_aliases VecRange true 100 200 ⟨1000, 8⟩
    (VecRange.ofExtentStride 3 5)
    (fun a => if a = 200 then some (VecRange.ofExtentStride 4 2) else none)
    (VecRange.ofExtentStride 4 2) 1 (by decide) (by decide) (by decide) (by decide)
  refine ⟨h.1.1, h.2.1.1, ?_, ?_⟩
  · rw [h.2.1.2.2.2.1]; decide
  · rw [h.2.2.2.2.2.2.1]; decide

/-! ## The container: construction from a dimension list -/

theorem canonicalAxes_extents : ∀ (acc : Nat) (ds : List Nat),
    (canonicalAxes acc ds).map AxisDescriptor.extent = ds
  | _, [] => rfl
  | acc, d :: ds => by
    simp [canonicalAxes, canonicalAxes_extents (acc * d) ds]

theorem extents_ofDims (ds : List Nat) : (Range.ofDims ds).extents = ds :=
  canonicalAxes_extents 1 ds

theorem r_ofDims (ds : List Nat) : (Range.ofDims ds).r = ds.length := by
  have h := congrArg List.length (canonicalAxes_extents 1 ds)
  rw [List.length_map] at h
  exact h

theorem area_ofDims (ds : List Nat) : (Range.ofDims ds).area = ds.prod := by
  rw [Range.area, extents_ofDims]

theorem isContiguous_ofDims (ds : List Nat) : (Range.ofDims ds).isContiguous = true := by
  rw [Range.isContiguous, extents_ofDims]
  simp [Range.ofDims]

theorem extentAt_ofDims (debug : Bool) (ds : List Nat) (k d : Nat)
    (hk : ds.get? k = some d) :
    (Range.ofDims ds).extentAt debug ((k : Int) + 1) = .ok d := by
  have hlen : k < ds.length := by
    rcases Nat.lt_or_ge k ds.length with h | h
    · exact h
    · rw [List.get?_eq_none.mpr h] at hk
      cases hk
  have hmap : ((Range.ofDims ds).axes.get? k).map AxisDescriptor.extent = some d := by
    rw [List.get?_eq_getElem?, ← List.getElem?_map]
    show ((canonicalAxes 1 ds).map AxisDescriptor.extent)[k]? = some d
    rw [canonicalAxes_extents, ← List.get?_eq_getElem?, hk]
  have hax : (Range.ofDims ds).axes.length = ds.length := r_ofDims ds
  have hcond : (1 : Int) ≤ (k : Int) + 1 ∧ (k : Int) + 1 ≤ ((Range.ofDims ds).axes.length : Int) := by
    rw [hax]
    omega
  have hidx : ((k : Int) + 1 - 1).toNat = k := by omega
  unfold Range.extentAt Range.axisAt
  rw [if_pos hcond, hidx]
  cases hget : (Range.ofDims ds).axes.get? k with
  | none => rw [hget] at hmap; cases hmap
  | some a =>
    rw [hget] at hmap
    simp only [Option.map_some', Option.some.injEq] at hmap
    simp [Except.map, hmap]

theorem one_le_prod_of_one_le : ∀ ds : List Nat, (∀ d ∈ ds, 1 ≤ d) → 1 ≤ ds.prod
  | [], _ => by simp
  | d :: ds, h => by
    have h1 : 1 ≤ d := h d (List.mem_cons_self d ds)
    have h2 : 1 ≤ ds.prod := one_le_prod_of_one_le ds fun x hx => h x (List.mem_cons_of_mem d hx)
    rw [List.prod_cons]
    exact Nat.mul_pos h1 h2

/-- C7: for every dimension list `(d0, d1, ..., dn)` with every `d_k ≥ 1`, in a
`DEBUG` build or not, `Tensor(d0, ..., dn)` is constructed, has rank `n+1`, extent
`d_k` on axis `k+1`, storage length `size() = d0*d1*...*dn`, which is the total
element count of its range, every stored element equal to 0, and is truthy. -/
theorem ofDims_zero_filled (debug : Bool) (d0 : Nat) (rest : List Nat)
    (hpos : ∀ d ∈ d0 :: rest, 1 ≤ d) :
    ∃ t : Tensor, Tensor.ofDims debug d0 rest = .ok t
      ∧ t.r = ((rest.length + 1 : Nat) : Int)
      ∧ (∀ k d : Nat, (d0 :: rest).get? k = some d → t.extent debug ((k : Int) + 1) = .ok (d : Int))
      ∧ t.size = (((d0 :: rest).prod : Nat) : Int)
      ∧ t.size = (t.range.area : Int)
      ∧ (∀ x ∈ t.data_, x = 0)
      ∧ t.toBool = true := by
  have hprod : 1 ≤ (d0 :: rest).prod := one_le_prod_of_one_le _ hpos
  have harea : (Range.ofDims (d0 :: rest)).area = (d0 :: rest).prod := area_ofDims _
  have hne : ((Range.ofDims (d0 :: rest)).area == 0) = false := by
    rw [harea]
    simp only [beq_eq_false_iff_ne, ne_eq]
    omega
  refine ⟨{ range_ := Range.ofDims (d0 :: rest),
            data_ := List.replicate (Range.ofDims (d0 :: rest)).area 0 }, ?_, ?_, ?_, ?_, ?_, ?_, ?_⟩
  · simp [Tensor.ofDims, Tensor.init, isContiguous_ofDims, hne]
  · simp [Tensor.r, r_ofDims]
  · intro k d hk
    simp only [Tensor.extent]
    rw [extentAt_ofDims debug (d0 :: rest) k d hk]
    rfl
  · simp [Tensor.size, harea]
  · simp [Tensor.size, Tensor.range]
  · intro x hx
    exact List.eq_of_mem_replicate hx
  · rw [harea]
    obtain ⟨n, hn⟩ : ∃ n, (d0 :: rest).prod = n + 1 := ⟨(d0 :: rest).prod - 1, by omega⟩
    rw [hn]
    rfl

/-- Witness of C7: the rank-2 container with extents (2,3) in a `DEBUG` build. -/
theorem ofDims_zero_filled_witness :
    ∃ t : Tensor, Tensor.ofDims true 2 [3] = .ok t
      ∧ t.r = ((([3] : List Nat).length + 1 : Nat) : Int)
      ∧ (∀ k d : Nat, (2 :: [3]).get? k = some d → t.extent true ((k : Int) + 1) = .ok (d : Int))
      ∧ t.size = (((2 :: [3]).prod : Nat) : Int)
      ∧ t.size = (t.range.area : Int)
      ∧ (∀ x ∈ t.data_, x = 0)
      ∧ t.toBool = true :=
  ofDims_zero_filled true 2 [3] (by decide)

/-! ## The container: resize, materialization from a view, `makeRef` -/

theorem toSizeT_natCast (n : Nat) (h : n < SIZE_MOD) : toSizeT (n : Int) = n := by
  unfold toSizeT
  unfold SIZE_MOD at *
  omega

theorem vectorResize_length (v : List Real) : vectorResize v v.length = v := by
  simp [vectorResize]

/-- The member `resize` never changes the storage: it resizes `data_` to `size()`,
which is the length `data_` already has. -/
theorem resize_data (t : Tensor) (newrange : Range) (h : t.data_.length < SIZE_MOD) :
    (t.resize newrange).data_ = t.data_ ∧ (t.resize newrange).range = newrange := by
  simp [Tensor.resize, Tensor.size, Tensor.range, toSizeT_natCast _ h, vectorResize_length]

/-- C8, the code at the failing input: the container with extents (2,3) and six
zeros is resized to the range with extents (4,5), whose total element count is 20;
afterwards the range is the new one and `size()` is still 6. -/
theorem resize_keeps_storage_length :
    (Tensor.resize { range_ := Range.ofDims [2, 3], data_ := [0, 0, 0, 0, 0, 0] }
        (Range.ofDims [4, 5])).range = Range.ofDims [4, 5]
    ∧ (Tensor.resize { range_ := Range.ofDims [2, 3], data_ := [0, 0, 0, 0, 0, 0] }
        (Range.ofDims [4, 5])).size = 6
    ∧ (Range.ofDims [4, 5]).area = 20 := by
  decide

/-- C9, the code at the failing input: a read-only view over a span of 8 elements
with the single-axis range of extent 4 and stride 2 is materialized in a `DEBUG`
build, by the constructor and by the assignment operator. The loop of
`assignFromRef` calls `ref.extent(0)`, and `VecRange::extent(i)` raises an error for
every `i != 1`, so no container is produced. -/
theorem assignFromRef_debug_fails_on_vecrange_view :
    Tensor.ofRef true (fun _ => none) (fun a => if 1000 ≤ a ∧ a < 1008 then some 7 else none)
        (TenRefc.ofMoved 100 ⟨1000, 8⟩ (VecRange.ofExtentStride 4 2))
      = .error (.error "i out of range in VecRange::extent(i)")
    ∧ Tensor.assignRef true (fun _ => none)
        (fun a => if 1000 ≤ a ∧ a < 1008 then some 7 else none)
        { range_ := Range.ofDims [2], data_ := [1, 2] }
        (TenRefc.ofMoved 100 ⟨1000, 8⟩ (VecRange.ofExtentStride 4 2))
      = .error (.error "i out of range in VecRange::extent(i)") := by
  decide

/-- Materialization of the same view without `DEBUG`: the unchecked `extent(0)`
returns the extent, and the container has rank 1, extent 4 and the four elements
met by the iteration. -/
theorem assignFromRef_release_on_vecrange_view :
    Tensor.ofRef false (fun _ => none) (fun a => if 1000 ≤ a ∧ a < 1008 then some 7 else none)
        (TenRefc.ofMoved 100 ⟨1000, 8⟩ (VecRange.ofExtentStride 4 2))
      = .ok { range_ := Range.ofDims [4], data_ := [7, 7, 7, 7] } := by
  decide

/-- Materialization of a view over the container with extents (2,3): the loop of
`assignFromRef` asks for the axes 0 and 1, and axis 0 is outside `[1, rank]` for the
1-based accessor of the range, which is an error in a `DEBUG` build. -/
theorem assignFromRef_debug_fails_on_container_view :
    Tensor.ofRef true (fun a => if a = 500 then some (Range.ofDims [2, 3]) else none)
        (fun a => if 1000 ≤ a ∧ a < 1006 then some 7 else none)
        (TenRefc.ofTensor 100
          { val := { range_ := Range.ofDims [2, 3], data_ := [7, 7, 7, 7, 7, 7] },
            rangeAddr := 500, dataAddr := 1000 })
      = .error (.error "axis index out of range") := by
  decide

/-- The overloads of `makeRef` on containers other than const temporaries: a
temporary of type `Tensor`, with or without extra arguments, never gets a view, the
call fails with the error "Cannot call makeRef on temporary (rvalue) Tensor"; a named
mutable container gets the mutable view, and a named read-only container the
read-only view, that lives at `self`, does not own a range, and refers to the range
and to the storage of the container. -/
theorem makeRef_on_named_and_mutable_temporary (VArg : Type) (self : Addr) (t : Tensor)
    (vargs : List VArg) (obj : TensorObj) (hself : obj.rangeAddr ≠ self) :
    makeRef self (MakeRefCall.rvalue t vargs)
      = .error (.error "Cannot call makeRef on temporary (rvalue) Tensor")
    ∧ (∀ m : MadeRef, makeRef self (MakeRefCall.rvalue t vargs) ≠ .ok m)
    ∧ makeRef self (MakeRefCall.lvalue obj : MakeRefCall VArg)
        = .ok (MadeRef.mutableView { parent :=
            { rangeAddr := self, d_ := { pdata := obj.dataAddr, size := obj.val.data_.length },
              prange_ := obj.rangeAddr, range_ := {} } })
    ∧ makeRef self (MakeRefCall.constLvalue obj : MakeRefCall VArg)
        = .ok (MadeRef.constView
            { rangeAddr := self, d_ := { pdata := obj.dataAddr, size := obj.val.data_.length },
              prange_ := obj.rangeAddr, range_ := {} })
    ∧ (TenRefc.ofTensor self obj).ownRange = false
    ∧ (TenRef.ofTensor self obj).ownRange = false := by
  have hown : (TenRefc.ofTensor self obj).ownRange = false := by
    simp [TenRefc.ownRange, TenRefc.ofTensor, TenRefc.pointTo, TenRefc.default, hself]
  refine ⟨rfl, ?_, rfl, rfl, hown, hown⟩
  intro m h
  simp [makeRef] at h

/-- C10, the code at the failing input: the temporary is a `const Tensor` with
extents (2,3), whose member `range_` lives at address 500 and whose storage of six
elements lives at address 1000. The throwing overload takes `Tensor &&` and cannot
bind it, so `makeRef(Tensor const&)` is selected and returns the read-only view at
address 100 that refers to the range and to the storage of the temporary; the view
is truthy and outlives the container. A temporary of type `Tensor` is rejected. -/
theorem makeRef_const_temporary_gets_view :
    makeRef 100 (MakeRefCall.constRvalue
        { val := { range_ := Range.ofDims [2, 3], data_ := [0, 0, 0, 0, 0, 0] },
          rangeAddr := 500, dataAddr := 1000 } : MakeRefCall Nat)
      = .ok (MadeRef.constView
          { rangeAddr := 100, d_ := { pdata := 1000, size := 6 }, prange_ := 500,
            range_ := {} })
    ∧ (TenRefc.ofTensor 100
        { val := { range_ := Range.ofDims [2, 3], data_ := [0, 0, 0, 0, 0, 0] },
          rangeAddr := 500, dataAddr := 1000 }).toBool = true
    ∧ makeRef 100 (MakeRefCall.rvalue
        { range_ := Range.ofDims [2, 3], data_ := [0, 0, 0, 0, 0, 0] } ([] : List Nat))
      = .error (.error "Cannot call makeRef on temporary (rvalue) Tensor") :=
  ⟨rfl, rfl, rfl⟩

/-! ## The container: zero area and contiguity -/

/-- C11, counterexample: without `DEBUG` the dimension list (2,0), whose product of
extents is zero, is accepted: the constructor returns a container with an empty
storage, which is falsy, and raises no error. -/
theorem ofDims_zero_area_release_builds :
    Tensor.ofDims false 2 [0] = .ok { range_ := Range.ofDims [2, 0], data_ := [] }
    ∧ Tensor.toBool { range_ := Range.ofDims [2, 0], data_ := [] } = false := by
  decide

/-- C11, amended: for every dimension list whose product of extents is zero, in a
`DEBUG` build the construction fails with the fatal error "Zero area in tensor" and
yields no container; the check is compiled under `DEBUG` only, and without it the
constructor returns a container with empty storage. -/
theorem ofDims_zero_area (d0 : Nat) (rest : List Nat) (h : (d0 :: rest).prod = 0) :
    Tensor.ofDims true d0 rest = .error (.error "Zero area in tensor")
    ∧ (∀ t : Tensor, Tensor.ofDims true d0 rest ≠ .ok t)
    ∧ Tensor.ofDims false d0 rest
        = .ok { range_ := Range.ofDims (d0 :: rest), data_ := [] } := by
  have harea : (Range.ofDims (d0 :: rest)).area = 0 := by rw [area_ofDims, h]
  have hdbg : Tensor.ofDims true d0 rest = .error (.error "Zero area in tensor") := by
    simp [Tensor.ofDims, Tensor.init, isContiguous_ofDims, harea]
  refine ⟨hdbg, ?_, ?_⟩
  · intro t ht
    rw [hdbg] at ht
    cases ht
  · simp [Tensor.ofDims, Tensor.init, harea]

/-- Witness of C11: the dimension list (2,0). -/
theorem ofDims_zero_area_witness :
    Tensor.ofDims true 2 [0] = .error (.error "Zero area in tensor")
    ∧ (∀ t : Tensor, Tensor.ofDims true 2 [0] ≠ .ok t)
    ∧ Tensor.ofDims false 2 [0] = .ok { range_ := Range.ofDims (2 :: [0]), data_ := [] } :=
  ofDims_zero_area 2 [0] (by decide)

theorem assignFromRef_range_contiguous {RangeT : Type} [RangeType RangeT] (debug : Bool)
    (rmem : RangeMem RangeT) (dmem : RealMem) (t0 : Tensor) (ref : TenRefc RangeT)
    (t : Tensor) (h : Tensor.assignFromRef debug rmem dmem t0 ref = .ok t) :
    t.range.isContiguous = true := by
  unfold Tensor.assignFromRef at h
  cases hr : ref.r rmem with
  | error f => rw [hr] at h; cases h
  | ok rank =>
    rw [hr] at h
    simp only at h
    cases hl : Tensor.extentLoop debug rmem ref (List.range rank.toNat)
        (RangeBuilder.ofRank rank) with
    | error f => rw [hl] at h; cases h
    | ok rb =>
      rw [hl] at h
      simp only at h
      cases he : ref.elements rmem dmem with
      | error f => rw [he] at h; cases h
      | ok elems =>
        rw [he] at h
        simp only [Except.ok.injEq] at h
        rw [← h]
        exact isContiguous_ofDims rb.exts

theorem ofDims_range_contiguous (debug : Bool) (d0 : Nat) (rest : List Nat) (t : Tensor)
    (h : Tensor.ofDims debug d0 rest = .ok t) : t.range.isContiguous = true := by
  unfold Tensor.ofDims Tensor.init at h
  split at h
  · cases h
  · dsimp only at h
    split at h
    · cases h
    · simp only [Except.ok.injEq] at h
      rw [← h]
      exact isContiguous_ofDims (d0 :: rest)

/-- C12, counterexample: the range with one axis of extent 2 and stride 2 is not
contiguous; without `DEBUG` the ownership-taking constructor accepts it, and
`resize` accepts it in every build, so in both cases a container with a
non-contiguous range results and no error is raised. -/
theorem noncontiguous_range_accepted :
    Range.isContiguous { axes := [{ extent := 2, stride := 2 }] } = false
    ∧ Tensor.ofStoreRange false [1, 2] { axes := [{ extent := 2, stride := 2 }] }
        = .ok { range_ := { axes := [{ extent := 2, stride := 2 }] }, data_ := [1, 2] }
    ∧ (Tensor.resize { range_ := Range.ofDims [2], data_ := [1, 2] }
        { axes := [{ extent := 2, stride := 2 }] }).range.isContiguous = false := by
  decide

/-- C12, amended: the range of a container is contiguous after construction from a
dimension list and after materialization from a view, in every build, and after
construction by taking ownership of a (storage, range) pair in a `DEBUG` build,
where a contiguous range is kept as given and a non-contiguous range fails with the
fatal error "Tensor required to have contiguous range" instead of producing a
container. -/
theorem container_range_contiguous (RangeT : Type) [RangeType RangeT] (debug : Bool)
    (d0 : Nat) (rest : List Nat) (store : List Real) (range : Range)
    (rmem : RangeMem RangeT) (dmem : RealMem) (t0 : Tensor) (ref : TenRefc RangeT) :
    (∀ t : Tensor, Tensor.ofDims debug d0 rest = .ok t → t.range.isContiguous = true)
    ∧ (range.isContiguous = true →
        Tensor.ofStoreRange true store range = .ok { range_ := range, data_ := store })
    ∧ (range.isContiguous = false →
        Tensor.ofStoreRange true store range
          = .error (.error "Tensor required to have contiguous range"))
    ∧ (∀ t : Tensor, Tensor.assignFromRef debug rmem dmem t0 ref = .ok t →
        t.range.isContiguous = true) := by
  refine ⟨fun t h => ofDims_range_contiguous debug d0 rest t h, ?_, ?_,
    fun t h => assignFromRef_range_contiguous debug rmem dmem t0 ref t h⟩
  · intro hc
    simp [Tensor.ofStoreRange, hc]
  · intro hc
    simp [Tensor.ofStoreRange, hc]

/-- Witness of C12: the container with extents (2,3), the non-contiguous range of
extent 2 and stride 2 and the contiguous range of extent 2 given to the
ownership-taking constructor in a `DEBUG` build, and the materialization of a
single-axis view of extent 4 and stride 2 without `DEBUG`. -/
theorem container_range_contiguous_witness :
    (Tensor.range { range_ := Range.ofDims [2, 3], data_ := List.replicate 6 0 }).isContiguous
      = true
    ∧ Tensor.ofStoreRange true [1, 2] (Range.ofDims [2])
        = .ok { range_ := Range.ofDims [2], data_ := [1, 2] }
    ∧ Tensor.ofStoreRange true [1, 2] { axes := [{ extent := 2, stride := 2 }] }
        = .error (.error "Tensor required to have contiguous range")
    ∧ (Tensor.range { range_ := Range.ofDims [4], data_ := [7, 7, 7, 7] }).isContiguous
      = true := by
  have h := container_range_contiguous VecRange false 2 [3] [1, 2]
    { axes := [{ extent := 2, stride := 2 }] } (fun _ => none)
    (fun a => if 1000 ≤ a ∧ a < 1008 then some 7 else none) {}
    (TenRefc.ofMoved 100 ⟨1000, 8⟩ (VecRange.ofExtentStride 4 2))
  have h2 := container_range_contiguous VecRange false 2 [3] [1, 2]
    (Range.ofDims [2]) (fun _ => none) (fun _ => none) {}
    (TenRefc.ofMoved 100 ⟨1000, 8⟩ (VecRange.ofExtentStride 4 2))
  exact ⟨h.1 _ (by decide), h2.2.1 (by decide), h.2.2.1 (by decide), h.2.2.2 _ (by decide)⟩

/-! ## Views: emptiness, the truth test, copies -/

/-- C13: a default-constructed view (`TenRefc` or `TenRef`) is falsy, and for every
view `v`, after `v.clear()` the view is falsy, its range pointer is null, so
`ownRange()` is false, and the memory (the elements of the backing storage and the
range objects, among them an external range the view referred to) is unchanged, as
is the member `range_` of the view. -/
theorem clear_makes_falsy (RangeT : Type) [RangeType RangeT] (self : Addr)
    (h : Heap RangeT) (v : TenRefc RangeT) (w : TenRef RangeT)
    (hv : v.rangeAddr ≠ nullptr) (hw : w.parent.rangeAddr ≠ nullptr) :
    ((TenRefc.default self : TenRefc RangeT).toBool = false
      ∧ (TenRef.default self : TenRef RangeT).toBool = false)
    ∧ ((v.clearIn h).2.toBool = false
      ∧ (v.clearIn h).2.prange_ = nullptr
      ∧ (v.clearIn h).2.ownRange = false
      ∧ (v.clearIn h).2.range_ = v.range_
      ∧ (v.clearIn h).1 = h)
    ∧ ((w.clearIn h).2.toBool = false
      ∧ (w.clearIn h).2.parent.prange_ = nullptr
      ∧ (w.clearIn h).2.ownRange = false
      ∧ (w.clearIn h).2.parent.range_ = w.parent.range_
      ∧ (w.clearIn h).1 = h) := by
  have hown : ∀ u : TenRefc RangeT, u.rangeAddr ≠ nullptr → u.clear.ownRange = false := by
    intro u hu
    simp only [TenRefc.ownRange, TenRefc.clear, beq_eq_false_iff_ne, ne_eq]
    exact fun hc => hu hc.symm
  exact ⟨⟨rfl, rfl⟩, ⟨rfl, rfl, hown v hv, rfl, rfl⟩, ⟨rfl, rfl, hown w.parent hw, rfl, rfl⟩⟩

/-- Witness of C13: a view at address 100 over the span at 1000 that aliases the
external range at address 200. -/
theorem clear_makes_falsy_witness :
    ((TenRefc.ofPointer 100 ⟨1000, 8⟩ 200 : TenRefc VecRange).clearIn
        { ranges := fun a => if a = 200 then some (VecRange.ofExtentStride 4 2) else none,
          reals := fun a => if 1000 ≤ a ∧ a < 1008 then some 7 else none }).2.toBool = false
    ∧ ((TenRefc.ofPointer 100 ⟨1000, 8⟩ 200 : TenRefc VecRange).clearIn
        { ranges := fun a => if a = 200 then some (VecRange.ofExtentStride 4 2) else none,
          reals := fun a => if 1000 ≤ a ∧ a < 1008 then some 7 else none }).2.ownRange = false
    ∧ (TenRefc.ofPointer 100 ⟨1000, 8⟩ 200 : TenRefc VecRange).toBool = true := by
  have h := clear_makes_falsy VecRange 100
    { ranges := fun a => if a = 200 then some (VecRange.ofExtentStride 4 2) else none,
      reals := fun a => if 1000 ≤ a ∧ a < 1008 then some 7 else none }
    (TenRefc.ofPointer 100 ⟨1000, 8⟩ 200) (TenRef.ofPointer 100 ⟨1000, 8⟩ 200)
    (by decide) (by decide)
  exact ⟨h.2.1.1, h.2.1.2.2.1, by decide⟩

/-- C14, counterexample: the view built by the pointer constructor from the
non-null span at address 1000 and a null range pointer has a null range reference
and is reported valid by the truth test. -/
theorem null_range_view_reported_valid :
    (TenRefc.ofPointer 100 ⟨1000, 8⟩ nullptr : TenRefc VecRange).prange_ = nullptr
    ∧ (TenRefc.ofPointer 100 ⟨1000, 8⟩ nullptr : TenRefc VecRange).data ≠ nullptr
    ∧ (TenRefc.ofPointer 100 ⟨1000, 8⟩ nullptr : TenRefc VecRange).toBool = true
    ∧ (TenRef.ofPointer 100 ⟨1000, 8⟩ nullptr : TenRef VecRange).toBool = true := by
  decide

/-- C14, amended: for every view, the truth test returns true exactly when the data
handle is non-null, whatever the range reference is; a view built from a span and a
null range pointer is reported valid exactly when the handle of the span is
non-null. -/
theorem toBool_iff_data_nonnull (RangeT : Type) [RangeType RangeT] (v : TenRefc RangeT)
    (w : TenRef RangeT) (self : Addr) (dat : DataRange) :
    (v.toBool = true ↔ v.data ≠ nullptr)
    ∧ (w.toBool = true ↔ w.data ≠ nullptr)
    ∧ ((TenRefc.ofPointer self dat nullptr : TenRefc RangeT).toBool = true
        ↔ dat.data ≠ nullptr) := by
  simp [TenRefc.toBool, TenRef.toBool, TenRef.data, TenRefc.data, TenRefc.ofPointer]

/-- C15, counterexample: in a `DEBUG` build, on the range of extent 4 and stride 2,
`offset` raises no error at index 0 and at index 5, both outside `1 ≤ index ≤ 4`: it
returns `2*(0-1)`, wrapped in `size_t`, and `2*(5-1) = 8`. -/
theorem offset_unchecked_outside_interval :
    offsetCall true (VecRange.ofExtentStride 4 2) 0 = .ok 18446744073709551614
    ∧ offsetCall true (VecRange.ofExtentStride 4 2) 5 = .ok 8 := by
  decide

/-- C15, amended: in a build with or without debug checks, `offset(r, index)` raises
no error for any index: it returns `stride*(index-1)` computed in `size_t`, which for
every `index ≥ 1`, inside `1 ≤ index ≤ extent(r)` or above it, is `stride*(index-1)`
modulo `2^64`. -/
theorem offsetCall_never_fails (debug : Bool) (vr : VecRange) (ind : Nat) (h : 1 ≤ ind) :
    offsetCall debug vr ind = .ok (offset vr ind)
    ∧ offsetCall debug vr ind = .ok ((vr.stride * (ind - 1)) % SIZE_MOD)
    ∧ offsetCall debug vr 0 = .ok ((vr.stride * (SIZE_MOD - 1)) % SIZE_MOD) := by
  refine ⟨rfl, ?_, ?_⟩
  · simp only [offsetCall, offset]
    rw [subSz_one ind h, mulSz_mod_right]
  · have h0 : subSz 0 1 = (SIZE_MOD - 1) % SIZE_MOD := by
      unfold subSz SIZE_MOD
      omega
    simp only [offsetCall, offset]
    rw [h0, mulSz_mod_right]

/-- Witness of C15: index 3 of the range of extent 4 and stride 2, in a `DEBUG`
build. -/
theorem offsetCall_never_fails_witness :
    offsetCall true (VecRange.ofExtentStride 4 2) 3
        = .ok (offset (VecRange.ofExtentStride 4 2) 3)
    ∧ offsetCall true (VecRange.ofExtentStride 4 2) 3
        = .ok (((VecRange.ofExtentStride 4 2).stride * (3 - 1)) % SIZE_MOD)
    ∧ offsetCall true (VecRange.ofExtentStride 4 2) 0
        = .ok (((VecRange.ofExtentStride 4 2).stride * (SIZE_MOD - 1)) % SIZE_MOD) :=
  offsetCall_never_fails true (VecRange.ofExtentStride 4 2) 3 (by decide)

theorem assign_of_owner {RangeT : Type} (a b : TenRefc RangeT) (hb : b.ownRange = true) :
    (a.assign b).rangeAddr = a.rangeAddr ∧ (a.assign b).d_ = b.d_
    ∧ (a.assign b).ownRange = true ∧ (a.assign b).prange_ = a.rangeAddr
    ∧ (a.assign b).range_ = b.range_ := by
  unfold TenRefc.assign
  rw [if_pos hb]
  simp [TenRefc.ownRange]

theorem assign_of_alias {RangeT : Type} (a b : TenRefc RangeT) (hb : b.ownRange = false) :
    (a.assign b).rangeAddr = a.rangeAddr ∧ (a.assign b).d_ = b.d_
    ∧ (a.assign b).prange_ = b.prange_
    ∧ (a.assign b).ownRange = (b.prange_ == a.rangeAddr) := by
  unfold TenRefc.assign
  rw [if_neg (by rw [hb]; decide)]
  simp [TenRefc.ownRange]

/-- C16, counterexample: the view `v`, whose member `range_` lives at address 100,
owns the range of extent 3 and stride 5; the view `t` at address 300 refers to that
member of `v` by pointer, so for `t` it is an external range and `t.ownRange()` is
false. After the copy assignment `v = t` the view `v` refers to the very same range
object as `t`, which is its own member, and `v.ownRange()` is true, for `TenRefc`
and for `TenRef`. Every view object at address 100 that refers to the range at
address 100 has `ownRange()` true, so no copy assignment can give both halves of the
claim here. -/
theorem assign_from_alias_of_own_range :
    (TenRefc.ofPointer 300 ⟨1000, 8⟩ 100 : TenRefc VecRange).ownRange = false
    ∧ ((TenRefc.ofMoved 100 ⟨1000, 8⟩ (VecRange.ofExtentStride 3 5)).assign
        (TenRefc.ofPointer 300 ⟨1000, 8⟩ 100)).prange_
      = (TenRefc.ofPointer 300 ⟨1000, 8⟩ 100 : TenRefc VecRange).prange_
    ∧ ((TenRefc.ofMoved 100 ⟨1000, 8⟩ (VecRange.ofExtentStride 3 5)).assign
        (TenRefc.ofPointer 300 ⟨1000, 8⟩ 100)).ownRange = true
    ∧ ((TenRef.ofMoved 100 ⟨1000, 8⟩ (VecRange.ofExtentStride 3 5)).assign
        (TenRef.ofPointer 300 ⟨1000, 8⟩ 100)).ownRange = true
    ∧ (∀ c : TenRefc VecRange, c.rangeAddr = 100 → c.prange_ = 100 → c.ownRange = true) := by
  refine ⟨by decide, by decide, by decide, by decide, ?_⟩
  intro c h1 h2
  simp [TenRefc.ownRange, h1, h2]

/-- C16, amended: copying a view (copy construction or copy assignment, `TenRefc`
and `TenRef`) gives the copy, at its own place, the span of the source. When the
source owns its range, the copy owns a range, held in its own member `range_` and
equal in value to the range of the source. When the source aliases an external
range, the copy refers to the very same range object, and `ownRange()` of the copy
is false exactly when that object is not the member `range_` of the copy itself: so
for a copy constructed as a new object, and for a copy assignment unless the source
aliases the internal range of the assigned view. -/
theorem copy_preserves_ownership (RangeT : Type) [RangeType RangeT] (self : Addr)
    (v t : TenRefc RangeT) (w u : TenRef RangeT) :
    ((TenRefc.copy self t).rangeAddr = self ∧ (TenRefc.copy self t).d_ = t.d_
      ∧ (v.assign t).rangeAddr = v.rangeAddr ∧ (v.assign t).d_ = t.d_
      ∧ (TenRef.copy self u).parent.rangeAddr = self
      ∧ (TenRef.copy self u).parent.d_ = u.parent.d_
      ∧ (w.assign u).parent.rangeAddr = w.parent.rangeAddr
      ∧ (w.assign u).parent.d_ = u.parent.d_)
    ∧ (t.ownRange = true →
        ((TenRefc.copy self t).ownRange = true ∧ (TenRefc.copy self t).prange_ = self
          ∧ (TenRefc.copy self t).range_ = t.range_)
        ∧ ((v.assign t).ownRange = true ∧ (v.assign t).prange_ = v.rangeAddr
          ∧ (v.assign t).range_ = t.range_))
    ∧ (t.ownRange = false →
        ((TenRefc.copy self t).prange_ = t.prange_
          ∧ (TenRefc.copy self t).ownRange = (t.prange_ == self)
          ∧ (t.prange_ ≠ self → (TenRefc.copy self t).ownRange = false))
        ∧ ((v.assign t).prange_ = t.prange_
          ∧ (v.assign t).ownRange = (t.prange_ == v.rangeAddr)
          ∧ (t.prange_ ≠ v.rangeAddr → (v.assign t).ownRange = false)))
    ∧ (u.ownRange = true →
        ((TenRef.copy self u).ownRange = true ∧ (TenRef.copy self u).parent.prange_ = self
          ∧ (TenRef.copy self u).parent.range_ = u.parent.range_)
        ∧ ((w.assign u).ownRange = true ∧ (w.assign u).parent.prange_ = w.parent.rangeAddr
          ∧ (w.assign u).parent.range_ = u.parent.range_))
    ∧ (u.ownRange = false →
        ((TenRef.copy self u).parent.prange_ = u.parent.prange_
          ∧ (TenRef.copy self u).ownRange = (u.parent.prange_ == self)
          ∧ (u.parent.prange_ ≠ self → (TenRef.copy self u).ownRange = false))
        ∧ ((w.assign u).parent.prange_ = u.parent.prange_
          ∧ (w.assign u).ownRange = (u.parent.prange_ == w.parent.rangeAddr)
          ∧ (u.parent.prange_ ≠ w.parent.rangeAddr → (w.assign u).ownRange = false))) := by
  have hplace : ∀ a b : TenRefc RangeT,
      (a.assign b).rangeAddr = a.rangeAddr ∧ (a.assign b).d_ = b.d_ := by
    intro a b
    cases hb : b.ownRange with
    | true => exact ⟨(assign_of_owner a b hb).1, (assign_of_owner a b hb).2.1⟩
    | false => exact ⟨(assign_of_alias a b hb).1, (assign_of_alias a b hb).2.1⟩
  have hown : ∀ a b : TenRefc RangeT, b.ownRange = true →
      (a.assign b).ownRange = true ∧ (a.assign b).prange_ = a.rangeAddr
        ∧ (a.assign b).range_ = b.range_ :=
    fun a b hb => (assign_of_owner a b hb).2.2
  have hext : ∀ a b : TenRefc RangeT, b.ownRange = false →
      (a.assign b).prange_ = b.prange_
        ∧ (a.assign b).ownRange = (b.prange_ == a.rangeAddr)
        ∧ (b.prange_ ≠ a.rangeAddr → (a.assign b).ownRange = false) := by
    intro a b hb
    obtain ⟨_, _, h3, h4⟩ := assign_of_alias a b hb
    refine ⟨h3, h4, fun hne => ?_⟩
    rw [h4]
    exact beq_eq_false_iff_ne.mpr hne
  exact ⟨⟨(hplace _ t).1, (hplace _ t).2, (hplace v t).1, (hplace v t).2,
      (hplace _ u.parent).1, (hplace _ u.parent).2, (hplace w.parent u.parent).1,
      (hplace w.parent u.parent).2⟩,
    fun ht => ⟨hown _ t ht, hown v t ht⟩,
    fun ht => ⟨hext _ t ht, hext v t ht⟩,
    fun hu => ⟨hown _ u.parent hu, hown w.parent u.parent hu⟩,
    fun hu => ⟨hext _ u.parent hu, hext w.parent u.parent hu⟩⟩

/-- Witness of C16: a view that owns the range of extent 3 and stride 5 is copied
to address 300, and a view that aliases the external range at address 200 is copied
to address 300 and assigned to a view at address 400. -/
theorem copy_preserves_ownership_witness :
    ((TenRefc.copy 300 (TenRefc.ofMoved 100 ⟨1000, 8⟩ (VecRange.ofExtentStride 3 5))).ownRange
        = true
      ∧ (TenRefc.copy 300 (TenRefc.ofMoved 100 ⟨1000, 8⟩ (VecRange.ofExtentStride 3 5))).prange_
        = 300
      ∧ (TenRefc.copy 300 (TenRefc.ofMoved 100 ⟨1000, 8⟩ (VecRange.ofExtentStride 3 5))).range_
        = (TenRefc.ofMoved 100 ⟨1000, 8⟩ (VecRange.ofExtentStride 3 5)).range_)
    ∧ ((TenRefc.copy 300 (TenRefc.ofPointer 100 ⟨1000, 8⟩ 200 : TenRefc VecRange)).prange_
        = (TenRefc.ofPointer 100 ⟨1000, 8⟩ 200 : TenRefc VecRange).prange_
      ∧ (TenRefc.copy 300 (TenRefc.ofPointer 100 ⟨1000, 8⟩ 200 : TenRefc VecRange)).ownRange
        = false)
    ∧ (((TenRefc.default 400 : TenRefc VecRange).assign
          (TenRefc.ofPointer 100 ⟨1000, 8⟩ 200)).ownRange = false) := by
  have h1 := copy_preserves_ownership VecRange 300 (TenRefc.default 400)
    (TenRefc.ofMoved 100 ⟨1000, 8⟩ (VecRange.ofExtentStride 3 5))
    (TenRef.default 400) (TenRef.ofMoved 100 ⟨1000, 8⟩ (VecRange.ofExtentStride 3 5))
  have h2 := copy_preserves_ownership VecRange 300 (TenRefc.default 400)
    (TenRefc.ofPointer 100 ⟨1000, 8⟩ 200)
    (TenRef.default 400) (TenRef.ofPointer 100 ⟨1000, 8⟩ 200)
  have h2a := h2.2.2.1 (by decide)
  exact ⟨(h1.2.1 (by decide)).1, ⟨h2a.1.1, h2a.1.2.2 (by decide)⟩, h2a.2.2.2 (by decide)⟩

/-- The loop of `assignFromRef` is the loop over `Tensor.axesRead` of the rank. -/
theorem assignFromRef_reads_axesRead {RangeT : Type} [RangeType RangeT] (debug : Bool)
    (rmem : RangeMem RangeT) (dmem : RealMem) (t0 : Tensor) (ref : TenRefc RangeT)
    (rank : Int) (f : Fault) (hr : ref.r rmem = .ok rank)
    (hl : Tensor.extentLoop debug rmem ref (Tensor.axesRead rank) (RangeBuilder.ofRank rank)
      = .error f) :
    Tensor.assignFromRef debug rmem dmem t0 ref = .error f := by
  unfold Tensor.axesRead at hl
  simp [Tensor.assignFromRef, hr, hl]

/-- The axis indices of the loop of `assignFromRef` are those of `Tensor.axesRead`. -/
theorem assignFromRef_loop_axes {RangeT : Type} [RangeType RangeT] (debug : Bool)
    (rmem : RangeMem RangeT) (dmem : RealMem) (t0 : Tensor) (ref : TenRefc RangeT) :
    Tensor.assignFromRef debug rmem dmem t0 ref
      = match ref.r rmem with
        | .error f => .error f
        | .ok rank =>
          match Tensor.extentLoop debug rmem ref (Tensor.axesRead rank)
              (RangeBuilder.ofRank rank) with
          | .error f => .error f
          | .ok rb =>
            match ref.elements rmem dmem with
            | .error f => .error f
            | .ok elems => .ok { range_ := rb.build, data_ := elems } :=
  rfl

/-- C18, the code at the failing input: for a single-axis view (rank 1) the loop of
`assignFromRef` passes the axis index 0, not 1, to the extent accessor, and for a
view of rank 2 the indices 0 and 1, not 1 and 2; on the view with the range of
extent 4 and stride 2, in a `DEBUG` build, `extent(0)` triggers the axis-index check
while `extent(1)` returns 4. -/
theorem axesRead_is_zero_based :
    (TenRefc.ofMoved 100 ⟨1000, 8⟩ (VecRange.ofExtentStride 4 2)).r (fun _ => none) = .ok 1
    ∧ Tensor.axesRead 1 = [0]
    ∧ Tensor.axesRead 2 = [0, 1]
    ∧ (TenRefc.ofMoved 100 ⟨1000, 8⟩ (VecRange.ofExtentStride 4 2)).extent true
        (fun _ => none) 0 = .error (.error "i out of range in VecRange::extent(i)")
    ∧ (TenRefc.ofMoved 100 ⟨1000, 8⟩ (VecRange.ofExtentStride 4 2)).extent true
        (fun _ => none) 1 = .ok 4 := by
  decide

/-! ## Iterator steps -/

theorem incTimes_eq : ∀ (n : Nat) (it : VecRangeIter), it.ind_ < SIZE_MOD →
    VecRangeIter.incTimes n it
      = { ind_ := (it.ind_ + n * it.stride_) % SIZE_MOD, stride_ := it.stride_ }
  | 0, it, h => by
    cases it with
    | mk ind st =>
      simp only [VecRangeIter.incTimes, Nat.zero_mul, Nat.add_zero]
      rw [Nat.mod_eq_of_lt h]
  | n + 1, it, _ => by
    cases it with
    | mk ind st =>
      have hlt : (VecRangeIter.inc { ind_ := ind, stride_ := st }).ind_ < SIZE_MOD := by
        simp only [VecRangeIter.inc, addSz]
        exact Nat.mod_lt _ (by unfold SIZE_MOD; omega)
      rw [VecRangeIter.incTimes, incTimes_eq n _ hlt]
      simp only [VecRangeIter.inc, addSz, Nat.succ_mul, VecRangeIter.mk.injEq, and_true]
      generalize n * st = a
      unfold SIZE_MOD
      omega

/-- C19: for every single-axis iterator `it` (its index a `size_t` value) and every
count `n`, `it += n` leaves the iterator in the state of `n` applications of `++`,
with the index increased by `n*stride` in `size_t` arithmetic and the stride
unchanged; `-= n` after `+= n` restores the iterator and `--` undoes `++`;
post-increment and post-decrement return the value from before the step and move
the iterator by one stride forward and backward. -/
theorem iterator_advance_retreat (it : VecRangeIter) (n : Nat) (hwf : it.ind_ < SIZE_MOD) :
    it.addAssign n = VecRangeIter.incTimes n it
    ∧ (it.addAssign n).ind_ = (it.ind_ + n * it.stride_) % SIZE_MOD
    ∧ (it.addAssign n).stride_ = it.stride_
    ∧ (it.addAssign n).subAssign n = it
    ∧ it.inc.dec = it
    ∧ (it.postInc.1 = it ∧ it.postInc.2 = it.inc
        ∧ it.postInc.2.ind_ = (it.ind_ + it.stride_) % SIZE_MOD)
    ∧ (it.postDec.1 = it ∧ it.postDec.2 = it.dec ∧ it.postDec.2.inc = it) := by
  cases it with
  | mk ind st =>
    simp only at hwf
    have hadd : addSz ind (mulSz n st) = (ind + n * st) % SIZE_MOD := by
      unfold addSz mulSz SIZE_MOD
      omega
    have hsub : subSz (addSz ind (mulSz n st)) (mulSz n st) = ind := by
      unfold subSz addSz mulSz SIZE_MOD at *
      omega
    have hincdec : subSz (addSz ind st) st = ind := by
      unfold subSz addSz SIZE_MOD at *
      omega
    have hdecinc : addSz (subSz ind st) st = ind := by
      unfold subSz addSz SIZE_MOD at *
      omega
    refine ⟨?_, ?_, rfl, ?_, ?_, ⟨rfl, rfl, rfl⟩, ⟨rfl, rfl, ?_⟩⟩
    · rw [incTimes_eq n _ hwf]
      simp only [VecRangeIter.addAssign, hadd]
    · simp only [VecRangeIter.addAssign, hadd]
    · simp only [VecRangeIter.addAssign, VecRangeIter.subAssign, hsub]
    · simp only [VecRangeIter.inc, VecRangeIter.dec, hincdec]
    · simp only [VecRangeIter.postDec, VecRangeIter.inc, VecRangeIter.dec, hdecinc]

/-- Witness of C19: the iterator at index 5 with stride 3, advanced by 4. -/
theorem iterator_advance_retreat_witness :
    (VecRangeIter.addAssign { ind_ := 5, stride_ := 3 } 4).ind_ = 17
    ∧ VecRangeIter.incTimes 4 { ind_ := 5, stride_ := 3 } = { ind_ := 17, stride_ := 3 }
    ∧ (VecRangeIter.addAssign { ind_ := 5, stride_ := 3 } 4).subAssign 4
        = { ind_ := 5, stride_ := 3 } := by
  have h := iterator_advance_retreat { ind_ := 5, stride_ := 3 } 4 (by decide)
  refine ⟨?_, ?_, h.2.2.2.1⟩
  · rw [h.2.1]; decide
  · rw [← h.1]; decide

/-! ## Referenced assignment -/

theorem offsetsOf_length : ∀ axes : List AxisDescriptor,
    (Range.offsetsOf axes).length = (axes.map AxisDescriptor.extent).prod
  | [] => rfl
  | a :: rest => by
    have hinner : ∀ l : List Nat,
        (l.flatMap fun base => (List.range a.extent).map fun i => base + i * a.stride).length
          = l.length * a.extent := by
      intro l
      induction l with
      | nil => simp
      | cons x xs ih =>
        rw [List.flatMap_cons, List.length_append, ih, List.length_map, List.length_range,
          List.length_cons, Nat.succ_mul, Nat.add_comm]
    rw [Range.offsetsOf, hinner, offsetsOf_length rest, List.map_cons, List.prod_cons,
      Nat.mul_comm]

/-- The rank-N iterator of a multi-axis range visits as many positions as the range
has elements, so two ranges with the same extents visit the same number of
positions and the positions of a referenced assignment pair off completely. -/
theorem offsets_length_eq_area (rg : Range) : rg.offsets.length = rg.area :=
  offsetsOf_length rg.axes

/-! ## Time evolution by gates -/

/-- C20, the code at the failing input: `ttotal = -1` and `tstep = 1` with the two
gates of sites 1 and 2, on a state that records its history. The step count is
`nt = int(-1.000000001) = -1`, the commensurability test `|nt*tstep - ttotal| = 0`
passes, the loop `for(tt = 1; tt <= nt; ++tt)` runs no sweep, and `gateTEvol` returns
normally after normalizing the state only: the number of executed sweeps is 0 with
`|0*tstep - ttotal| = 1`. With `ttotal = 2` the same gates are applied in two
sweeps. -/
theorem gateTEvol_opposite_signs_runs_no_sweep :
    gateTEvol recordingOps [1, 2] (-1) 1 [] = .ok (1, [TEvolEvent.normalize])
    ∧ toInt ((-1 : Real) / 1 + (1 / 1000000000 * ((-1 : Real) / 1))) = .ok (-1)
    ∧ sweepCount (-1) = 0
    ∧ fabs ((0 : Real) * 1 - (-1)) = 1
    ∧ gateTEvol recordingOps [1, 2] 2 1 []
        = .ok (1, [TEvolEvent.normalize,
            TEvolEvent.position 1, TEvolEvent.applygate 1,
            TEvolEvent.position 2, TEvolEvent.applygate 2, TEvolEvent.normalize,
            TEvolEvent.position 1, TEvolEvent.applygate 1,
            TEvolEvent.position 2, TEvolEvent.applygate 2, TEvolEvent.normalize]) := by
  with_unfolding_all decide

/-! ## Iterators derived from one range; monotonicity of offsets -/

theorem apply_stride (st : IterStep) (it : VecRangeIter) : (st.apply it).stride = it.stride := by
  cases st <;> rfl

theorem applySteps_stride : ∀ (steps : List IterStep) (it : VecRangeIter),
    (applySteps steps it).stride = it.stride
  | [], _ => rfl
  | st :: rest, it => by
    rw [applySteps, applySteps_stride rest (st.apply it), apply_stride]

theorem compare_of_equal_stride (asserts : Bool) (x y : VecRangeIter)
    (h : x.stride = y.stride) :
    VecRangeIter.eq asserts x y = some (x.offset == y.offset)
    ∧ VecRangeIter.ne asserts x y = some (!(x.offset == y.offset))
    ∧ VecRangeIter.lt asserts x y = some (decide (x.offset < y.offset)) := by
  simp [VecRangeIter.eq, VecRangeIter.ne, VecRangeIter.lt, h, bne]

/-- C21: for every single-axis range `r` and every iterator obtained from
`r.begin()` by a sequence of `++`, `--`, `+=` and `-=` steps, the stride of the
iterator is `r.end().stride()`, which is `r.stride()`; hence, with the `assert` on or
off, the comparisons `==`, `!=` and `<` of such an iterator with `r.end()` or with
another iterator derived from `r` never fail their assertion, `==` holds exactly
when the offsets are equal and `!=` is its negation. -/
theorem derived_iterators_share_stride (asserts : Bool) (r : VecRange)
    (steps steps2 : List IterStep) :
    (applySteps steps r.begin).stride = r.end.stride
    ∧ r.end.stride = r.stride
    ∧ (VecRangeIter.eq asserts (applySteps steps r.begin) r.end
        = some ((applySteps steps r.begin).offset == r.end.offset)
      ∧ VecRangeIter.ne asserts (applySteps steps r.begin) r.end
        = some (!((applySteps steps r.begin).offset == r.end.offset))
      ∧ VecRangeIter.lt asserts (applySteps steps r.begin) r.end
        = some (decide ((applySteps steps r.begin).offset < r.end.offset)))
    ∧ (VecRangeIter.eq asserts (applySteps steps r.begin) (applySteps steps2 r.begin)
        = some ((applySteps steps r.begin).offset == (applySteps steps2 r.begin).offset)
      ∧ VecRangeIter.ne asserts (applySteps steps r.begin) (applySteps steps2 r.begin)
        = some (!((applySteps steps r.begin).offset == (applySteps steps2 r.begin).offset))
      ∧ VecRangeIter.lt asserts (applySteps steps r.begin) (applySteps steps2 r.begin)
        = some (decide ((applySteps steps r.begin).offset
            < (applySteps steps2 r.begin).offset))) := by
  have h1 : (applySteps steps r.begin).stride = r.stride := by
    rw [applySteps_stride]
    rfl
  have h2 : (applySteps steps2 r.begin).stride = r.stride := by
    rw [applySteps_stride]
    rfl
  have hend : r.end.stride = r.stride := rfl
  exact ⟨h1.trans hend.symm, hend, compare_of_equal_stride asserts _ _ (h1.trans hend.symm),
    compare_of_equal_stride asserts _ _ (h1.trans h2.symm)⟩

theorem offset_eq_of_no_wrap (e s i : Nat) (hno : s * (e - 1) < SIZE_MOD) (h1 : 1 ≤ i)
    (hie : i ≤ e) : offset (VecRange.ofExtentStride e s) i = s * (i - 1) := by
  have hle : s * (i - 1) ≤ s * (e - 1) := Nat.mul_le_mul_left s (by omega)
  unfold offset
  rw [subSz_one i h1, mulSz_mod_right]
  exact Nat.mod_eq_of_lt (Nat.lt_of_le_of_lt hle hno)

/-- C22: for every single-axis range with stride `s ≥ 1` and extent `e ≥ 1` such that
`s*(e-1)` does not overflow `size_t`, `offset(r, i)` is strictly increasing in `i` on
`1 ≤ i ≤ e`, so distinct valid indices address distinct linear offsets; the smallest
offset is 0, at index 1, and the largest is `s*(e-1)`, at index `e`. -/
theorem offset_strictly_increasing (e s : Nat) (hs : 1 ≤ s) (he : 1 ≤ e)
    (hno : s * (e - 1) < SIZE_MOD) :
    (∀ i j, 1 ≤ i → i < j → j ≤ e →
        offset (VecRange.ofExtentStride e s) i < offset (VecRange.ofExtentStride e s) j)
    ∧ (∀ i j, 1 ≤ i → i ≤ e → 1 ≤ j → j ≤ e → i ≠ j →
        offset (VecRange.ofExtentStride e s) i ≠ offset (VecRange.ofExtentStride e s) j)
    ∧ offset (VecRange.ofExtentStride e s) 1 = 0
    ∧ offset (VecRange.ofExtentStride e s) e = s * (e - 1)
    ∧ (∀ i, 1 ≤ i → i ≤ e →
        0 ≤ offset (VecRange.ofExtentStride e s) i
        ∧ offset (VecRange.ofExtentStride e s) i ≤ s * (e - 1)) := by
  have hlt : ∀ i j, 1 ≤ i → i < j → j ≤ e →
      offset (VecRange.ofExtentStride e s) i < offset (VecRange.ofExtentStride e s) j := by
    intro i j hi hij hje
    rw [offset_eq_of_no_wrap e s i hno hi (by omega),
      offset_eq_of_no_wrap e s j hno (by omega) hje]
    exact Nat.mul_lt_mul_of_pos_left (by omega) hs
  refine ⟨hlt, ?_, ?_, offset_eq_of_no_wrap e s e hno he (Nat.le_refl e), ?_⟩
  · intro i j hi hie hj hje hij
    rcases Nat.lt_or_gt_of_ne hij with h | h
    · exact Nat.ne_of_lt (hlt i j hi h hje)
    · exact Nat.ne_of_gt (hlt j i hj h hie)
  · rw [offset_eq_of_no_wrap e s 1 hno (Nat.le_refl 1) he, Nat.sub_self, Nat.mul_zero]
  · intro i hi hie
    refine ⟨Nat.zero_le _, ?_⟩
    rw [offset_eq_of_no_wrap e s i hno hi hie]
    exact Nat.mul_le_mul_left s (by omega)

/-- Witness of C22: extent 4 and stride 2, with offsets 0, 2, 4 and 6. -/
theorem offset_strictly_increasing_witness :
    offset (VecRange.ofExtentStride 4 2) 2 < offset (VecRange.ofExtentStride 4 2) 3
    ∧ offset (VecRange.ofExtentStride 4 2) 1 = 0
    ∧ offset (VecRange.ofExtentStride 4 2) 4 = 2 * (4 - 1) := by
  have h := offset_strictly_increasing 4 2 (by decide) (by decide) (by decide)
  exact ⟨h.1 2 3 (by decide) (by decide) (by decide), h.2.2.1, h.2.2.2.1⟩

end itensor
